import Mathlib

/-!
# SimpleAudioDevice: the zero-timestamp clock, starting and stopping I/O, the I/O callback
and the tone generator

A shallow embedding of `SimpleAudioDriverExtension/SimpleAudioDevice.cpp`.

* Unsigned machine integers are natural numbers; every addition and multiplication the
  source performs on them is followed by an explicit `% 2 ^ 32` or `% 2 ^ 64`.
* `float` and `double` are IEEE-754 binary32 / binary64 values (`Flt`), rounded to nearest,
  ties to even.  `sin` comes from the C library and is a parameter of the functions using it.
* Behaviour the C++ standard leaves undefined (a floating value converted to an integer type
  that cannot hold it, a division or remainder by zero, an access outside a buffer, a null
  dereference, signed overflow of a loop counter) makes a function return `none`.
* Objects of the AudioDriverKit framework are records holding the values the driver reads
  back from them; the status a framework call returns is an argument of the function
  making the call.
-/

namespace NullAudio

/-! ## Floating point -/

/-- An IEEE-754 value.  A finite value is the rational it denotes.  Zero carries no sign: the
only operation of the driver that could tell `-0` from `+0` is a division by it. -/
inductive Flt where
  | nan : Flt
  | inf (neg : Bool) : Flt
  | fin (q : ℚ) : Flt
deriving DecidableEq

/-- Number of binary digits of `n`, by halving; `fuel` bounds the number of halvings. -/
def bitLenAux : Nat → Nat → Nat
  | 0, _ => 0
  | fuel + 1, n => if n = 0 then 0 else bitLenAux fuel (n / 2) + 1

/-- Number of binary digits of `n` (`0` for `n = 0`). -/
def bitLen (n : Nat) : Nat := bitLenAux n n

/-- The binary exponent of a non-zero rational: the `e` with `2 ^ e ≤ |q| < 2 ^ (e + 1)`. -/
def ilog2 (q : ℚ) : Int :=
  let d : Int := (bitLen q.num.natAbs : Int) - (bitLen q.den : Int)
  if (2 : ℚ) ^ d ≤ |q| then d else d - 1

/-- Nearest integer, ties to the even one. -/
def roundNearestEven (x : ℚ) : Int :=
  let f := ⌊x⌋
  if x - f < 1 / 2 then f
  else if 1 / 2 < x - f then f + 1
  else if f % 2 = 0 then f else f + 1

/-- Rounding of an exact result to the format with `prec` significand bits and largest
exponent `emax` (binary32: 24 and 127, binary64: 53 and 1023): round to nearest, ties to
even, gradual underflow, overflow to infinity. -/
def Flt.round (prec : Nat) (emax : Int) (q : ℚ) : Flt :=
  if q = 0 then .fin 0
  else
    let ulp : ℚ := 2 ^ (max (ilog2 q) (1 - emax) - ((prec : Int) - 1))
    let r : ℚ := (roundNearestEven (q / ulp) : ℚ) * ulp
    if 2 ^ (emax + 1) ≤ |r| then .inf (decide (q < 0)) else .fin r

/-- IEEE multiplication in the format `(prec, emax)`. -/
def Flt.mul (prec : Nat) (emax : Int) : Flt → Flt → Flt
  | .nan, _ => .nan
  | _, .nan => .nan
  | .inf a, .inf b => .inf (xor a b)
  | .inf a, .fin q => if q = 0 then .nan else .inf (xor a (decide (q < 0)))
  | .fin q, .inf b => if q = 0 then .nan else .inf (xor (decide (q < 0)) b)
  | .fin a, .fin b => Flt.round prec emax (a * b)

/-- IEEE division in the format `(prec, emax)`. -/
def Flt.div (prec : Nat) (emax : Int) : Flt → Flt → Flt
  | .nan, _ => .nan
  | _, .nan => .nan
  | .inf _, .inf _ => .nan
  | .inf a, .fin q => .inf (xor a (decide (q < 0)))
  | .fin _, .inf _ => .fin 0
  | .fin a, .fin b =>
    if b = 0 then (if a = 0 then .nan else .inf (decide (a < 0)))
    else Flt.round prec emax (a / b)

/-- The comparison `x > y`; false when an operand is a NaN. -/
def Flt.gt : Flt → Flt → Bool
  | .nan, _ => false
  | _, .nan => false
  | .inf a, .inf b => !a && b
  | .inf a, .fin _ => !a
  | .fin _, .inf b => b
  | .fin a, .fin b => decide (b < a)

/-- The comparison `x < y`; false when an operand is a NaN. -/
def Flt.lt (x y : Flt) : Bool := Flt.gt y x

/-- The comparison `x ≤ y`; false when an operand is a NaN. -/
def Flt.le : Flt → Flt → Bool
  | .nan, _ => false
  | _, .nan => false
  | .inf a, .inf b => a || !b
  | .inf a, .fin _ => a
  | .fin _, .inf b => !b
  | .fin a, .fin b => decide (a ≤ b)

/-- Truncation toward zero, the first step of a floating-to-integer conversion. -/
def Flt.trunc : Flt → Option Int
  | .fin q => some (if 0 ≤ q then ⌊q⌋ else -⌊-q⌋)
  | _ => none

/-- The conversion `static_cast<uint64_t>(double)`: undefined unless the truncated value
fits. -/
def Flt.toUInt64 (x : Flt) : Option Nat :=
  match x.trunc with
  | some t => if 0 ≤ t ∧ t < 2 ^ 64 then some t.toNat else none
  | none => none

/-- Multiplication of two `float`s. -/
def f32_mul : Flt → Flt → Flt := Flt.mul 24 127

/-- Multiplication of two `double`s. -/
def f64_mul : Flt → Flt → Flt := Flt.mul 53 1023

/-- Division of two `double`s. -/
def f64_div : Flt → Flt → Flt := Flt.div 53 1023

/-- Conversion of an unsigned integer to `double`. -/
def f64_ofNat (n : Nat) : Flt := Flt.round 53 1023 (n : ℚ)

/-- Conversion of a `double` to `float`. -/
def f32_ofDouble : Flt → Flt
  | .fin q => Flt.round 24 127 q
  | x => x

/-! ## Machine integers and framework objects -/

/-- A 16-bit signed sample. -/
abbrev int16_t : Type := { x : Int // -32768 ≤ x ∧ x ≤ 32767 }

/-- The conversion of a `float` to `int16_t`: undefined unless the truncated value fits. -/
def Flt.toInt16 (x : Flt) : Option int16_t :=
  match x.trunc with
  | some t => if h : -32768 ≤ t ∧ t ≤ 32767 then some ⟨t, h⟩ else none
  | none => none

/-- The conversion of an `int16_t` to `float`, which is exact. -/
def f32_ofInt16 (x : int16_t) : Flt := .fin (x.val : ℚ)

/-- Status codes (`kern_return_t`), by their 32-bit pattern. -/
abbrev kern_return_t : Type := Nat

def kIOReturnSuccess : kern_return_t := 0

def kIOReturnNoMemory : kern_return_t := 0xe00002bd

def kIOReturnNoResources : kern_return_t := 0xe00002be

def kSampleRate_1 : Flt := .fin 44100

def kSampleRate_2 : Flt := .fin 48000

def NSEC_PER_SEC : Nat := 1000000000

/-- The `double` nearest to pi, the value of the constant `M_PI`. -/
def M_PI : Flt := .fin (884279719003555 / 281474976710656)

/-- Fields of the stream format the driver reads. -/
structure IOUserAudioStreamBasicDescription where
  mSampleRate : Flt
  mBytesPerPacket : Nat
  mFramesPerPacket : Nat
  mBytesPerFrame : Nat
  mChannelsPerFrame : Nat
  mBitsPerChannel : Nat
deriving DecidableEq

/-- A mapping of a stream's ring buffer: its `int16_t` slots.  `GetLength` is in bytes. -/
structure IOMemoryMap where
  samples : List int16_t
deriving DecidableEq

def IOMemoryMap.GetLength (m : IOMemoryMap) : Nat := 2 * m.samples.length

/-- Modelled from the spec: `IOUserAudioStream` is a framework class; a stream has exactly
one current format. -/
structure IOUserAudioStream where
  current_format : IOUserAudioStreamBasicDescription
deriving DecidableEq

/-- Modelled from the spec: `IOTimerDispatchSource` is a framework class; the record keeps
the deadline last passed to `WakeAtTime` and the flag last passed to `SetEnable`. -/
structure IOTimerDispatchSource where
  wake_time : Nat
  enabled : Bool
deriving DecidableEq

/-- `mach_timebase_info`: host ticks times `numer / denom` is nanoseconds. -/
structure mach_timebase_info where
  numer : Nat
  denom : Nat
deriving DecidableEq

/-- The device: what the `IOUserAudioDevice` base class keeps for it (sample rate,
zero-timestamp period, current zero timestamp, running flag), followed by the fields of
`SimpleAudioDevice_IVars`.  The level control is its scalar value (a `float`), the selector
control its current value. -/
structure SimpleAudioDevice where
  sample_rate : Flt
  zero_timestamp_period : Nat
  zts_sample_time : Nat
  zts_host_time : Nat
  is_running : Bool
  m_zts_host_ticks_per_buffer : Nat
  m_stream_format : IOUserAudioStreamBasicDescription
  m_output_stream : IOUserAudioStream
  m_output_memory_map : Option IOMemoryMap
  m_input_stream : IOUserAudioStream
  m_input_memory_map : Option IOMemoryMap
  m_input_volume_control : Flt
  m_input_selector_control : Nat
  m_zts_timer_event_source : Option IOTimerDispatchSource
  m_tone_sample_index : Nat
deriving DecidableEq

structure IOUserAudioSelectorValueDescription where
  m_value : Nat
  m_name : String
deriving DecidableEq

/-- The array `m_data_sources`, assigned once, in `init`. -/
def m_data_sources : Fin 3 → IOUserAudioSelectorValueDescription
  | 0 => { m_value := 440, m_name := "Sine Tone 440" }
  | 1 => { m_value := 660, m_name := "Sine Tone 660" }
  | 2 => { m_value := 0, m_name := "Loopback" }

/-! ## The zero-timestamp clock -/

def GetCurrentZeroTimestamp (s : SimpleAudioDevice) : Nat × Nat :=
  (s.zts_sample_time, s.zts_host_time)

def UpdateCurrentZeroTimestamp (s : SimpleAudioDevice) (sample_time host_time : Nat) :
    SimpleAudioDevice :=
  { s with zts_sample_time := sample_time, zts_host_time := host_time }

def WakeAtTime (t : IOTimerDispatchSource) (deadline : Nat) : IOTimerDispatchSource :=
  { t with wake_time := deadline }

def SetEnable (t : IOTimerDispatchSource) (enable : Bool) : IOTimerDispatchSource :=
  { t with enabled := enable }

/-- The tick count `UpdateTimers` computes, as a `double`, before the conversion to
`uint64_t`. -/
def host_ticks_double (s : SimpleAudioDevice) (timebase_info : mach_timebase_info) : Flt :=
  let sample_rate := s.m_stream_format.mSampleRate
  let ticks := f64_div (f64_ofNat (s.zero_timestamp_period * NSEC_PER_SEC % 2 ^ 64)) sample_rate
  f64_div (f64_mul ticks (f64_ofNat timebase_info.denom)) (f64_ofNat timebase_info.numer)

def UpdateTimers (s : SimpleAudioDevice) (timebase_info : mach_timebase_info) :
    Option SimpleAudioDevice :=
  match (host_ticks_double s timebase_info).toUInt64 with
  | some ticks => some { s with m_zts_host_ticks_per_buffer := ticks }
  | none => none

/-- `StartTimers`; `current_time` is what `mach_absolute_time()` returns. -/
def StartTimers (s : SimpleAudioDevice) (timebase_info : mach_timebase_info)
    (current_time : Nat) : Option (kern_return_t × SimpleAudioDevice) :=
  match UpdateTimers s timebase_info with
  | none => none
  | some s1 =>
    match s1.m_zts_timer_event_source with
    | some timer =>
      let s2 := UpdateCurrentZeroTimestamp s1 0 0
      let timer1 := WakeAtTime timer ((current_time + s2.m_zts_host_ticks_per_buffer) % 2 ^ 64)
      let timer2 := SetEnable timer1 true
      some (kIOReturnSuccess, { s2 with m_zts_timer_event_source := some timer2 })
    | none => some (kIOReturnNoResources, s1)

def StopTimers (s : SimpleAudioDevice) : SimpleAudioDevice :=
  match s.m_zts_timer_event_source with
  | some timer => { s with m_zts_timer_event_source := some (SetEnable timer false) }
  | none => s

/-- The timer handler; `time` is the host time of the firing. -/
def ZtsTimerOccurred_Impl (s : SimpleAudioDevice) (time : Nat) : Option SimpleAudioDevice :=
  let current_time := time
  let (current_sample_time, current_host_time) := GetCurrentZeroTimestamp s
  let host_ticks_per_buffer := s.m_zts_host_ticks_per_buffer
  let (current_sample_time, current_host_time) :=
    if current_host_time ≠ 0 then
      ((current_sample_time + s.zero_timestamp_period) % 2 ^ 64,
       (current_host_time + host_ticks_per_buffer) % 2 ^ 64)
    else
      (0, current_time)
  let s1 := UpdateCurrentZeroTimestamp s current_sample_time current_host_time
  match s1.m_zts_timer_event_source with
  | some timer =>
    let timer1 := WakeAtTime timer ((current_host_time + host_ticks_per_buffer) % 2 ^ 64)
    some { s1 with m_zts_timer_event_source := some timer1 }
  | none => none

/-! ## Selector and sample rate -/

/-- Modelled from the spec: `SetCurrentSelectedValues` is a framework method; exactly one
value is current, and the control takes the new one when the call succeeds.  `result` is the
status the call returns. -/
def SetCurrentSelectedValues (s : SimpleAudioDevice) (value : Nat) (result : kern_return_t) :
    kern_return_t × SimpleAudioDevice :=
  if result = kIOReturnSuccess then (result, { s with m_input_selector_control := value })
  else (result, s)

/-- `ToggleDataSource`; `set_result` is the status of `SetCurrentSelectedValues`. -/
def ToggleDataSource (s : SimpleAudioDevice) (set_result : kern_return_t) :
    kern_return_t × SimpleAudioDevice :=
  let current_data_source_value := s.m_input_selector_control
  let data_source_value_to_set :=
    if current_data_source_value = (m_data_sources 0).m_value then (m_data_sources 1).m_value
    else if current_data_source_value = (m_data_sources 1).m_value then
      (m_data_sources 2).m_value
    else (m_data_sources 0).m_value
  SetCurrentSelectedValues s data_source_value_to_set set_result

def GetSampleRate (s : SimpleAudioDevice) : Flt := s.sample_rate

/-- Modelled from the spec: `SetSampleRate` is a method of the framework base class; the
device takes the new rate when the call succeeds.  `result` is the status the call returns. -/
def SetSampleRate (s : SimpleAudioDevice) (rate : Flt) (result : kern_return_t) :
    kern_return_t × SimpleAudioDevice :=
  if result = kIOReturnSuccess then (result, { s with sample_rate := rate }) else (result, s)

/-- Modelled from the spec: `DeviceSampleRateChanged` is a framework method; the stream's
current format takes the new rate when the call succeeds.  `result` is the status the call
returns. -/
def DeviceSampleRateChanged (st : IOUserAudioStream) (rate : Flt) (result : kern_return_t) :
    kern_return_t × IOUserAudioStream :=
  if result = kIOReturnSuccess then
    (result, { st with current_format := { st.current_format with mSampleRate := rate } })
  else (result, st)

def GetCurrentStreamFormat (st : IOUserAudioStream) : IOUserAudioStreamBasicDescription :=
  st.current_format

/-- What the framework answers during one `PerformDeviceConfigurationChange`: the status of
`SetSampleRate`, of `DeviceSampleRateChanged` on the input and on the output stream, and
the base class's own `PerformDeviceConfigurationChange`. -/
structure ConfigurationChangeHost where
  set_sample_rate : kern_return_t
  input_rate_changed : kern_return_t
  output_rate_changed : kern_return_t
  super_perform : SimpleAudioDevice → Nat → kern_return_t × SimpleAudioDevice

/-- `PerformDeviceConfigurationChange`.  The constant `k_custom_config_change_action` is
declared in a header that is not among the sources and is an argument here.  The argument
`in_change_info` only feeds a debug message and is left out. -/
def PerformDeviceConfigurationChange (k_custom_config_change_action : Nat)
    (host : ConfigurationChangeHost) (s : SimpleAudioDevice) (change_action : Nat) :
    Option (kern_return_t × SimpleAudioDevice) :=
  let result : Option (kern_return_t × SimpleAudioDevice) :=
    if change_action = k_custom_config_change_action then
      match (GetSampleRate s).toUInt64, kSampleRate_1.toUInt64 with
      | some current, some rate_1 =>
        let rate_to_set := if current ≠ rate_1 then kSampleRate_1 else kSampleRate_2
        let (ret, s1) := SetSampleRate s rate_to_set host.set_sample_rate
        if ret = kIOReturnSuccess then
          let (_, input_stream) :=
            DeviceSampleRateChanged s1.m_input_stream rate_to_set host.input_rate_changed
          let (ret2, output_stream) :=
            DeviceSampleRateChanged s1.m_output_stream rate_to_set host.output_rate_changed
          some (ret2, { s1 with m_input_stream := input_stream, m_output_stream := output_stream })
        else some (ret, s1)
      | _, _ => none
    else some (host.super_perform s change_action)
  match result with
  | some (ret, s2) =>
    some (ret, { s2 with m_stream_format := GetCurrentStreamFormat s2.m_input_stream })
  | none => none

/-! ## Tone generation and the I/O callback -/

def FloatToInt16 (in_sample : Flt) : Option int16_t :=
  let in_sample :=
    if Flt.gt in_sample (.fin 1) then .fin 1
    else if Flt.lt in_sample (.fin (-1)) then .fin (-1)
    else in_sample
  (f32_mul in_sample (.fin 0x7fff)).toInt16

/-- A store into a buffer of `int16_t`; undefined outside the buffer. -/
def storeSample (buffer : List int16_t) (index : Nat) (value : int16_t) :
    Option (List int16_t) :=
  if index < buffer.length then some (buffer.set index value) else none

/-- The inner loop of `GenerateToneForInput`: `count` channels from `channel_index` on, of
frame `frame` (which is `in_sample_time + i`). -/
def toneChannels (format : IOUserAudioStreamBasicDescription) (buffer_length frame : Nat)
    (integer_value : int16_t) : Nat → Nat → List int16_t → Option (List int16_t)
  | 0, _, buffer => some buffer
  | count + 1, channel_index, buffer =>
    if buffer_length = 0 then none
    else
      let buffer_index :=
        (format.mChannelsPerFrame * frame % 2 ^ 64 + channel_index) % 2 ^ 64 % buffer_length
      match storeSample buffer buffer_index integer_value with
      | some buffer1 =>
        toneChannels format buffer_length frame integer_value count (channel_index + 1) buffer1
      | none => none

/-- One pass of the outer loop of `GenerateToneForInput`, for the index `i`; the state of
the loop is the buffer and `m_tone_sample_index`. -/
def toneSample (sin : Flt → Flt) (format : IOUserAudioStreamBasicDescription)
    (input_volume_level in_tone_freq : Flt) (buffer_length in_sample_time i : Nat)
    (st : List int16_t × Nat) : Option (List int16_t × Nat) :=
  let angle := f64_div
    (f64_mul (f64_mul (f64_mul (.fin 2) M_PI) in_tone_freq) (f64_ofNat st.2))
    format.mSampleRate
  let float_value := f32_ofDouble (f64_mul input_volume_level (sin angle))
  match FloatToInt16 float_value with
  | none => none
  | some integer_value =>
    if 2 ^ 31 ≤ format.mChannelsPerFrame then none
    else
      match toneChannels format buffer_length ((in_sample_time + i) % 2 ^ 64) integer_value
          format.mChannelsPerFrame 0 st.1 with
      | some buffer1 => some (buffer1, (st.2 + 1) % 2 ^ 64)
      | none => none

/-- The outer loop of `GenerateToneForInput`: `count` passes from the index `i` on. -/
def toneLoop (sin : Flt → Flt) (format : IOUserAudioStreamBasicDescription)
    (input_volume_level in_tone_freq : Flt) (buffer_length in_sample_time : Nat) :
    Nat → Nat → List int16_t × Nat → Option (List int16_t × Nat)
  | 0, _, st => some st
  | count + 1, i, st =>
    match toneSample sin format input_volume_level in_tone_freq buffer_length in_sample_time
        i st with
    | some st1 =>
      toneLoop sin format input_volume_level in_tone_freq buffer_length in_sample_time
        count (i + 1) st1
    | none => none

/-- `GenerateToneForInput`; `sin` is the C library's sine on `double`. -/
def GenerateToneForInput (sin : Flt → Flt) (s : SimpleAudioDevice) (in_tone_freq : Flt)
    (in_sample_time in_frame_size : Nat) : Option SimpleAudioDevice :=
  match s.m_input_memory_map with
  | none => some s
  | some map =>
    let format := s.m_stream_format
    if format.mChannelsPerFrame = 0 then none
    else if format.mBytesPerFrame / format.mChannelsPerFrame = 0 then none
    else
      let buffer_length := map.GetLength / (format.mBytesPerFrame / format.mChannelsPerFrame)
      let num_samples := in_frame_size
      let input_volume_level := s.m_input_volume_control
      match toneLoop sin format input_volume_level in_tone_freq buffer_length in_sample_time
          num_samples 0 (map.samples, s.m_tone_sample_index) with
      | some (buffer, tone_sample_index) =>
        some { s with m_input_memory_map := some { samples := buffer },
                      m_tone_sample_index := tone_sample_index }
      | none => none

inductive IOUserAudioIOOperation where
  | BeginRead : IOUserAudioIOOperation
  | WriteEnd : IOUserAudioIOOperation
deriving DecidableEq

/-- One pass of the loopback loop of the I/O callback, for the index `i`. -/
def loopbackSample (format : IOUserAudioStreamBasicDescription) (input_volume_level : Flt)
    (output_buffer : List int16_t) (output_buffer_length input_buffer_length : Nat)
    (in_sample_time i : Nat) (input_buffer : List int16_t) : Option (List int16_t) :=
  if input_buffer_length = 0 ∨ output_buffer_length = 0 then none
  else
    let input_buffer_index :=
      (format.mChannelsPerFrame * in_sample_time % 2 ^ 64 + i) % 2 ^ 64 % input_buffer_length
    let output_buffer_index :=
      (format.mChannelsPerFrame * in_sample_time % 2 ^ 64 + i) % 2 ^ 64 % output_buffer_length
    match output_buffer[output_buffer_index]? with
    | none => none
    | some sample =>
      match (f32_mul input_volume_level (f32_ofInt16 sample)).toInt16 with
      | none => none
      | some value => storeSample input_buffer input_buffer_index value

/-- The loopback loop of the I/O callback: `count` passes from the index `i` on. -/
def loopbackLoop (format : IOUserAudioStreamBasicDescription) (input_volume_level : Flt)
    (output_buffer : List int16_t) (output_buffer_length input_buffer_length : Nat)
    (in_sample_time : Nat) : Nat → Nat → List int16_t → Option (List int16_t)
  | 0, _, input_buffer => some input_buffer
  | count + 1, i, input_buffer =>
    match loopbackSample format input_volume_level output_buffer output_buffer_length
        input_buffer_length in_sample_time i input_buffer with
    | some input_buffer1 =>
      loopbackLoop format input_volume_level output_buffer output_buffer_length
        input_buffer_length in_sample_time count (i + 1) input_buffer1
    | none => none

/-- The block `io_operation` installed by `init` as the real-time callback.  The arguments
`in_device` and `in_host_time` are not used by the block and are left out. -/
def io_operation (sin : Flt → Flt) (s : SimpleAudioDevice)
    (in_io_operation : IOUserAudioIOOperation) (in_io_buffer_frame_size in_sample_time : Nat) :
    Option (kern_return_t × SimpleAudioDevice) :=
  match in_io_operation with
  | .WriteEnd => some (kIOReturnSuccess, s)
  | .BeginRead =>
    let tone_selector_value := s.m_input_selector_control
    if tone_selector_value = 0 then
      match s.m_input_memory_map, s.m_output_memory_map with
      | some input_map, some output_map =>
        let input_volume_level := s.m_input_volume_control
        let format := s.m_stream_format
        let output_buffer_length := output_map.GetLength / 2
        let input_buffer_length := input_map.GetLength / 2
        let count := format.mChannelsPerFrame * in_io_buffer_frame_size % 2 ^ 32
        if 2 ^ 31 ≤ count then none
        else
          match loopbackLoop format input_volume_level output_map.samples output_buffer_length
              input_buffer_length in_sample_time count 0 input_map.samples with
          | some input_buffer =>
            some (kIOReturnSuccess, { s with m_input_memory_map := some { samples := input_buffer } })
          | none => none
      | _, _ => some (kIOReturnNoMemory, s)
    else
      let frequency := f64_ofNat tone_selector_value
      match GenerateToneForInput sin s frequency in_sample_time in_io_buffer_frame_size with
      | some s1 => some (kIOReturnSuccess, s1)
      | none => none

/-! ## Starting and stopping I/O -/

/-- Modelled from the spec: `IOMemoryDescriptor` is a framework class; the record holds what
`CreateMapping` on it answers, a status and the mapping it stores through its last
argument. -/
structure IOMemoryDescriptor where
  mapping_status : kern_return_t
  mapping : Option IOMemoryMap
deriving DecidableEq

def CreateMapping (d : IOMemoryDescriptor) : kern_return_t × Option IOMemoryMap :=
  (d.mapping_status, d.mapping)

/-- What the framework and the host answer during one `StartIO`: the status of the base
class's start and stop, the memory descriptor of each stream (absent for a null pointer),
and the timebase and clock reading `StartTimers` gets. -/
structure StartHost where
  base_start : kern_return_t
  base_stop : kern_return_t
  output_iomd : Option IOMemoryDescriptor
  input_iomd : Option IOMemoryDescriptor
  timebase_info : mach_timebase_info
  current_time : Nat
deriving DecidableEq

/-- Modelled from the spec: the base class's `StartIO` is framework code; the device counts
as running when the call succeeds.  `result` is the status the call returns. -/
def super_StartIO (s : SimpleAudioDevice) (result : kern_return_t) :
    kern_return_t × SimpleAudioDevice :=
  if result = kIOReturnSuccess then (result, { s with is_running := true }) else (result, s)

/-- Modelled from the spec: the base class's `StopIO` is framework code, the base stop
sequence; the device no longer counts as running when the call succeeds.  `result` is the
status the call returns. -/
def super_StopIO (s : SimpleAudioDevice) (result : kern_return_t) :
    kern_return_t × SimpleAudioDevice :=
  if result = kIOReturnSuccess then (result, { s with is_running := false }) else (result, s)

/-- The block at the label `Failure` of `StartIO`: the base stop sequence, then both
mappings are dropped.  `error` is the status `StartIO` goes on to return. -/
def Failure (base_stop : kern_return_t) (error : kern_return_t) (s : SimpleAudioDevice) :
    Option (kern_return_t × SimpleAudioDevice) :=
  let s1 := ( super_StopIO s base_stop).2
  some (error, { s1 with m_output_memory_map := none, m_input_memory_map := none })

/-- `StartIO`.  The macros `FailIfError`, `FailIfNULL` and `FailIf` come from a header that
is not among the sources; they are read as: when the status is not success, the pointer is
null or the condition holds, run the action given and go to the label. -/
def StartIO (host : StartHost) (s : SimpleAudioDevice) :
    Option (kern_return_t × SimpleAudioDevice) :=
  let (error, s1) := super_StartIO s host.base_start
  if error ≠ kIOReturnSuccess then Failure host.base_stop error s1
  else
    match host.output_iomd with
    | none => Failure host.base_stop kIOReturnNoMemory s1
    | some output_iomd =>
      let (error, output_map) := CreateMapping output_iomd
      let s2 := { s1 with m_output_memory_map := output_map }
      if error ≠ kIOReturnSuccess then Failure host.base_stop error s2
      else
        match host.input_iomd with
        | none => Failure host.base_stop kIOReturnNoMemory s2
        | some input_iomd =>
          let (error, input_map) := CreateMapping input_iomd
          let s3 := { s2 with m_input_memory_map := input_map }
          if error ≠ kIOReturnSuccess then Failure host.base_stop error s3
          else
            match StartTimers s3 host.timebase_info host.current_time with
            | some (_, s4) => some (error, s4)
            | none => none

/-- `StopIO`; `base_stop` is the status of the base class's stop. -/
def StopIO (base_stop : kern_return_t) (s : SimpleAudioDevice) :
    kern_return_t × SimpleAudioDevice :=
  super_StopIO ( StopTimers s) base_stop

/-! ## Concrete devices -/

/-- The first of the two stream formats `init` builds: 44100 Hz, mono, 16 bits. -/
def format_1 : IOUserAudioStreamBasicDescription :=
  { mSampleRate := kSampleRate_1, mBytesPerPacket := 2, mFramesPerPacket := 1,
    mBytesPerFrame := 2, mChannelsPerFrame := 1, mBitsPerChannel := 16 }

/-- A device as `init` leaves it for a zero-timestamp period of 512 frames, with the level
control at scalar 1. -/
def idle_device : SimpleAudioDevice :=
  { sample_rate := kSampleRate_1, zero_timestamp_period := 512, zts_sample_time := 0,
    zts_host_time := 0, is_running := false, m_zts_host_ticks_per_buffer := 0,
    m_stream_format := format_1,
    m_output_stream := { current_format := format_1 }, m_output_memory_map := none,
    m_input_stream := { current_format := format_1 }, m_input_memory_map := none,
    m_input_volume_control := .fin 1, m_input_selector_control := 440,
    m_zts_timer_event_source := some { wake_time := 0, enabled := false },
    m_tone_sample_index := 0 }

/-- A running clock whose period and tick count are both zero. -/
def stalled_device : SimpleAudioDevice :=
  { idle_device with zero_timestamp_period := 0, zts_sample_time := 5, zts_host_time := 7 }

/-- A running clock one period away from the end of the 64-bit range. -/
def wrapping_device : SimpleAudioDevice :=
  { idle_device with zts_sample_time := 2 ^ 64 - 512, zts_host_time := 2 ^ 64 - 1000,
                     m_zts_host_ticks_per_buffer := 1000 }

/-- A running clock at `(512, 1000)` with 1000 ticks per buffer. -/
def running_device : SimpleAudioDevice :=
  { idle_device with zts_sample_time := 512, zts_host_time := 1000,
                     m_zts_host_ticks_per_buffer := 1000 }

/-- A stand-in for the C library's `sin` where a concrete function is needed: the constant
zero. -/
def flat_sine : Flt → Flt := fun _ => .fin 0

/-- The idle device with the selector on loopback; no buffer is mapped. -/
def loopback_unmapped_device : SimpleAudioDevice :=
  { idle_device with m_input_selector_control := 0 }

/-- The second of the two stream formats `init` builds: 48000 Hz, mono, 16 bits. -/
def format_2 : IOUserAudioStreamBasicDescription :=
  { format_1 with mSampleRate := kSampleRate_2 }

/-- The idle device after `StartTimers` at host time 1000, on a host whose timebase is
125 / 3. -/
def started_device : SimpleAudioDevice :=
  { idle_device with
      m_zts_host_ticks_per_buffer := 278639,
      m_zts_timer_event_source := some { wake_time := 279639, enabled := true } }

/-- The started device after a change of the sample rate to 48000 Hz. -/
def retuned_device : SimpleAudioDevice :=
  { started_device with
      sample_rate := kSampleRate_2,
      m_stream_format := format_2,
      m_input_stream := { current_format := format_2 },
      m_output_stream := { current_format := format_2 } }

/-- The idle device with its sample rate at 96000 Hz, a rate `init` does not make
available. -/
def odd_rate_device : SimpleAudioDevice :=
  { idle_device with sample_rate := .fin 96000 }

/-- The idle device after a change of the sample rate to 48000 Hz. -/
def retuned_idle_device : SimpleAudioDevice :=
  { idle_device with
      sample_rate := kSampleRate_2,
      m_stream_format := format_2,
      m_input_stream := { current_format := format_2 },
      m_output_stream := { current_format := format_2 } }

/-- A framework that accepts every call of a configuration change. -/
def agreeable_host : ConfigurationChangeHost :=
  { set_sample_rate := kIOReturnSuccess, input_rate_changed := kIOReturnSuccess,
    output_rate_changed := kIOReturnSuccess,
    super_perform := fun s _ => (kIOReturnSuccess, s) }

/-- The idle device with the selector on loopback, the level control at scalar 1 and two
mapped buffers of four slots each. -/
def loopback_device : SimpleAudioDevice :=
  { idle_device with
      m_input_selector_control := 0,
      m_input_memory_map := some { samples := [⟨0, by decide⟩, ⟨0, by decide⟩,
        ⟨0, by decide⟩, ⟨0, by decide⟩] },
      m_output_memory_map := some { samples := [⟨10, by decide⟩, ⟨20, by decide⟩,
        ⟨30, by decide⟩, ⟨40, by decide⟩] } }

/-- Loopback with an input mapping of one slot and an output mapping of two slots. -/
def mismatched_device : SimpleAudioDevice :=
  { idle_device with
      m_input_selector_control := 0,
      m_input_memory_map := some { samples := [⟨0, by decide⟩] },
      m_output_memory_map := some { samples := [⟨10, by decide⟩, ⟨20, by decide⟩] } }

/-- Loopback with two mappings of length zero. -/
def empty_buffers_device : SimpleAudioDevice :=
  { idle_device with
      m_input_selector_control := 0,
      m_input_memory_map := some { samples := [] },
      m_output_memory_map := some { samples := [] } }

/-- The idle device (selector at 440 Hz) with an input mapping of four slots. -/
def tone_device : SimpleAudioDevice :=
  { idle_device with
      m_input_memory_map := some { samples := [⟨1, by decide⟩, ⟨2, by decide⟩,
        ⟨3, by decide⟩, ⟨4, by decide⟩] } }

/-- The output mapping of `loopback_device`. -/
def loopback_output_map : IOMemoryMap :=
  { samples := [⟨10, by decide⟩, ⟨20, by decide⟩, ⟨30, by decide⟩, ⟨40, by decide⟩] }

/-- The input mapping of `loopback_device`. -/
def loopback_input_map : IOMemoryMap :=
  { samples := [⟨0, by decide⟩, ⟨0, by decide⟩, ⟨0, by decide⟩, ⟨0, by decide⟩] }

/-- The four slots of the input mapping of `tone_device`. -/
def tone_slots : List int16_t :=
  [⟨1, by decide⟩, ⟨2, by decide⟩, ⟨3, by decide⟩, ⟨4, by decide⟩]

/-- The tone device with a cached format of one byte per frame and one channel. -/
def byte_format_device : SimpleAudioDevice :=
  { tone_device with m_stream_format := { format_1 with mBytesPerFrame := 1 } }

/-- The idle device with a cached format of four bytes per frame and one channel, and an
input mapping of one slot, two bytes. -/
def wide_format_device : SimpleAudioDevice :=
  { idle_device with
      m_stream_format := { format_1 with mBytesPerFrame := 4 },
      m_input_memory_map := some { samples := [⟨1, by decide⟩] } }

/-- A memory descriptor whose mapping succeeds and has four slots. -/
def mapped_descriptor : IOMemoryDescriptor :=
  { mapping_status := kIOReturnSuccess, mapping := some loopback_input_map }

/-- A host on which the output stream's mapping succeeds and the input stream has no memory
descriptor. -/
def half_mapped_host : StartHost :=
  { base_start := kIOReturnSuccess, base_stop := kIOReturnSuccess,
    output_iomd := some mapped_descriptor, input_iomd := none,
    timebase_info := { numer := 125, denom := 3 }, current_time := 1000 }

/-- A host on which every step of `StartIO` succeeds. -/
def working_host : StartHost :=
  { half_mapped_host with input_iomd := some mapped_descriptor }

/-! ## The zero-timestamp clock: theorems -/

/-- Claim C1, as amended.  A firing that finds a stored host time other than 0 emits the
stored sample time plus the period and the stored host time plus the ticks per buffer, both
sums taken modulo `2 ^ 64`; each new value is strictly greater than the stored one when its
increment is not zero and its sum stays below `2 ^ 64`. -/
theorem ZtsTimerOccurred_running (s : SimpleAudioDevice) (time : Nat)
    (timer : IOTimerDispatchSource) (h_timer : s.m_zts_timer_event_source = some timer)
    (h_running : s.zts_host_time ≠ 0) :
    ∃ s1, ZtsTimerOccurred_Impl s time = some s1 ∧
      s1.zts_sample_time = (s.zts_sample_time + s.zero_timestamp_period) % 2 ^ 64 ∧
      s1.zts_host_time = (s.zts_host_time + s.m_zts_host_ticks_per_buffer) % 2 ^ 64 ∧
      (0 < s.zero_timestamp_period → s.zts_sample_time + s.zero_timestamp_period < 2 ^ 64 →
        s.zts_sample_time < s1.zts_sample_time) ∧
      (0 < s.m_zts_host_ticks_per_buffer →
        s.zts_host_time + s.m_zts_host_ticks_per_buffer < 2 ^ 64 →
        s.zts_host_time < s1.zts_host_time) := by
  simp only [ZtsTimerOccurred_Impl, GetCurrentZeroTimestamp, UpdateCurrentZeroTimestamp,
    h_timer, if_pos h_running, ne_eq, not_false_eq_true]
  refine ⟨_, rfl, rfl, rfl, ?_, ?_⟩
  · intro hp hlt
    simp only [Nat.mod_eq_of_lt hlt]
    omega
  · intro hp hlt
    simp only [Nat.mod_eq_of_lt hlt]
    omega

/-- Witness for `ZtsTimerOccurred_running`: a firing of `running_device`. -/
theorem ZtsTimerOccurred_running_witness :
    (running_device.m_zts_timer_event_source = some { wake_time := 0, enabled := false } ∧
      running_device.zts_host_time ≠ 0) ∧
    ∃ s1, ZtsTimerOccurred_Impl running_device 2000 = some s1 ∧
      s1.zts_sample_time
        = (running_device.zts_sample_time + running_device.zero_timestamp_period) % 2 ^ 64 ∧
      s1.zts_host_time
        = (running_device.zts_host_time + running_device.m_zts_host_ticks_per_buffer)
            % 2 ^ 64 ∧
      (0 < running_device.zero_timestamp_period →
        running_device.zts_sample_time + running_device.zero_timestamp_period < 2 ^ 64 →
        running_device.zts_sample_time < s1.zts_sample_time) ∧
      (0 < running_device.m_zts_host_ticks_per_buffer →
        running_device.zts_host_time + running_device.m_zts_host_ticks_per_buffer < 2 ^ 64 →
        running_device.zts_host_time < s1.zts_host_time) :=
  ⟨⟨rfl, by decide⟩,
   ZtsTimerOccurred_running running_device 2000 { wake_time := 0, enabled := false } rfl
     (by decide)⟩

/-- Claim C1 as written fails.  With a period and a tick count of zero a firing of the
running clock emits the stored timestamp `(5, 7)` again; one period before the end of the
64-bit range both sums wrap and the firing emits `(0, 0)`. -/
theorem zts_not_strictly_increasing :
    (GetCurrentZeroTimestamp stalled_device = (5, 7) ∧
      Option.map GetCurrentZeroTimestamp (ZtsTimerOccurred_Impl stalled_device 100)
        = some (5, 7)) ∧
    (GetCurrentZeroTimestamp wrapping_device = (2 ^ 64 - 512, 2 ^ 64 - 1000) ∧
      Option.map GetCurrentZeroTimestamp (ZtsTimerOccurred_Impl wrapping_device 100)
        = some (0, 0)) := by
  decide

/-- Claim C2.  A firing at host time `time` that finds the stored host time 0 emits
`(0, time)`, whatever the stored sample time; every firing schedules the next wake-up at the
emitted host time plus the ticks per buffer (a 64-bit sum). -/
theorem ZtsTimerOccurred_first_and_reschedule (s : SimpleAudioDevice) (time : Nat)
    (timer : IOTimerDispatchSource) (h_timer : s.m_zts_timer_event_source = some timer) :
    ∃ s1 timer1, ZtsTimerOccurred_Impl s time = some s1 ∧
      s1.m_zts_timer_event_source = some timer1 ∧
      timer1.wake_time = (s1.zts_host_time + s1.m_zts_host_ticks_per_buffer) % 2 ^ 64 ∧
      s1.m_zts_host_ticks_per_buffer = s.m_zts_host_ticks_per_buffer ∧
      (s.zts_host_time = 0 → s1.zts_sample_time = 0 ∧ s1.zts_host_time = time) := by
  by_cases h : s.zts_host_time = 0
  · simp [ZtsTimerOccurred_Impl, GetCurrentZeroTimestamp, UpdateCurrentZeroTimestamp,
      h_timer, h, WakeAtTime]
  · simp [ZtsTimerOccurred_Impl, GetCurrentZeroTimestamp, UpdateCurrentZeroTimestamp,
      h_timer, h, WakeAtTime]

/-- Witness for `ZtsTimerOccurred_first_and_reschedule`: the first firing of an idle device,
at host time 100. -/
theorem ZtsTimerOccurred_first_and_reschedule_witness :
    idle_device.m_zts_timer_event_source = some { wake_time := 0, enabled := false } ∧
    ∃ s1 timer1, ZtsTimerOccurred_Impl idle_device 100 = some s1 ∧
      s1.m_zts_timer_event_source = some timer1 ∧
      timer1.wake_time = (s1.zts_host_time + s1.m_zts_host_ticks_per_buffer) % 2 ^ 64 ∧
      s1.m_zts_host_ticks_per_buffer = idle_device.m_zts_host_ticks_per_buffer ∧
      (idle_device.zts_host_time = 0 → s1.zts_sample_time = 0 ∧ s1.zts_host_time = 100) :=
  ⟨by decide,
   ZtsTimerOccurred_first_and_reschedule idle_device 100 { wake_time := 0, enabled := false }
     (by decide)⟩

/-- Claim C3.  `StartTimers` stores as ticks per buffer the conversion to `uint64_t` of
`(period * 1e9 / sample_rate) * denom / numer`, computed in `double` from the cached stream
format.  With a timer event source it also sets the zero timestamp to `(0, 0)`, schedules
the first firing at the current time plus those ticks (a 64-bit sum), enables the timer and
returns success; without one it returns `kIOReturnNoResources` and schedules nothing. -/
theorem StartTimers_arms_clock (s : SimpleAudioDevice) (timebase_info : mach_timebase_info)
    (current_time ticks : Nat)
    (h_ticks : (f64_div
        (f64_mul
          (f64_div (f64_ofNat (s.zero_timestamp_period * NSEC_PER_SEC % 2 ^ 64))
            s.m_stream_format.mSampleRate)
          (f64_ofNat timebase_info.denom))
        (f64_ofNat timebase_info.numer)).toUInt64 = some ticks) :
    (∀ timer, s.m_zts_timer_event_source = some timer →
      StartTimers s timebase_info current_time = some (kIOReturnSuccess,
        { s with zts_sample_time := 0, zts_host_time := 0,
                 m_zts_host_ticks_per_buffer := ticks,
                 m_zts_timer_event_source :=
                   some { wake_time := (current_time + ticks) % 2 ^ 64, enabled := true } })) ∧
    (s.m_zts_timer_event_source = none →
      StartTimers s timebase_info current_time = some (kIOReturnNoResources,
        { s with m_zts_host_ticks_per_buffer := ticks })) := by
  have h_update : UpdateTimers s timebase_info
      = some { s with m_zts_host_ticks_per_buffer := ticks } := by
    simp only [UpdateTimers, host_ticks_double, h_ticks]
  constructor
  · intro timer h_timer
    simp [StartTimers, h_update, h_timer, UpdateCurrentZeroTimestamp, WakeAtTime, SetEnable]
  · intro h_timer
    simp [StartTimers, h_update, h_timer]

/-- Witness for `StartTimers_arms_clock`: the idle device (512 frames at 44100 Hz) on a host
whose timebase is 125 / 3 gets 278639 ticks per buffer. -/
theorem StartTimers_arms_clock_witness :
    (f64_div
        (f64_mul
          (f64_div (f64_ofNat (idle_device.zero_timestamp_period * NSEC_PER_SEC % 2 ^ 64))
            idle_device.m_stream_format.mSampleRate)
          (f64_ofNat (3 : Nat)))
        (f64_ofNat (125 : Nat))).toUInt64 = some 278639 ∧
    ((∀ timer, idle_device.m_zts_timer_event_source = some timer →
      StartTimers idle_device { numer := 125, denom := 3 } 1000 = some (kIOReturnSuccess,
        { idle_device with
            zts_sample_time := 0, zts_host_time := 0,
            m_zts_host_ticks_per_buffer := 278639,
            m_zts_timer_event_source :=
              some { wake_time := (1000 + 278639) % 2 ^ 64, enabled := true } })) ∧
    (idle_device.m_zts_timer_event_source = none →
      StartTimers idle_device { numer := 125, denom := 3 } 1000 = some (kIOReturnNoResources,
        { idle_device with m_zts_host_ticks_per_buffer := 278639 }))) :=
  ⟨by decide!, StartTimers_arms_clock idle_device { numer := 125, denom := 3 } 1000 278639
    (by decide!)⟩

/-! ## The selector: theorems -/

/-- Claim C4.  A successful `ToggleDataSource` moves the selector from 440 to 660, from 660
to 0 and from 0 to 440, and three successful calls in a row give back the device they
started from. -/
theorem ToggleDataSource_cycles (s : SimpleAudioDevice)
    (h : s.m_input_selector_control = 440 ∨ s.m_input_selector_control = 660 ∨
      s.m_input_selector_control = 0) :
    (s.m_input_selector_control = 440 → ToggleDataSource s kIOReturnSuccess
      = (kIOReturnSuccess, { s with m_input_selector_control := 660 })) ∧
    (s.m_input_selector_control = 660 → ToggleDataSource s kIOReturnSuccess
      = (kIOReturnSuccess, { s with m_input_selector_control := 0 })) ∧
    (s.m_input_selector_control = 0 → ToggleDataSource s kIOReturnSuccess
      = (kIOReturnSuccess, { s with m_input_selector_control := 440 })) ∧
    (ToggleDataSource (ToggleDataSource (ToggleDataSource s kIOReturnSuccess).2
      kIOReturnSuccess).2 kIOReturnSuccess).2 = s := by
  rcases s with ⟨_, _, _, _, _, _, _, _, _, _, _, _, sel, _, _⟩
  simp only at h
  refine ⟨?_, ?_, ?_, ?_⟩
  · rintro rfl; simp [ToggleDataSource, SetCurrentSelectedValues, m_data_sources]
  · rintro rfl; simp [ToggleDataSource, SetCurrentSelectedValues, m_data_sources]
  · rintro rfl; simp [ToggleDataSource, SetCurrentSelectedValues, m_data_sources]
  · rcases h with rfl | rfl | rfl <;>
      simp [ToggleDataSource, SetCurrentSelectedValues, m_data_sources]

/-- Witness for `ToggleDataSource_cycles`: the idle device, whose selector is at 440. -/
theorem ToggleDataSource_cycles_witness :
    (idle_device.m_input_selector_control = 440 ∨ idle_device.m_input_selector_control = 660 ∨
      idle_device.m_input_selector_control = 0) ∧
    ((idle_device.m_input_selector_control = 440 → ToggleDataSource idle_device kIOReturnSuccess
      = (kIOReturnSuccess, { idle_device with m_input_selector_control := 660 })) ∧
    (idle_device.m_input_selector_control = 660 → ToggleDataSource idle_device kIOReturnSuccess
      = (kIOReturnSuccess, { idle_device with m_input_selector_control := 0 })) ∧
    (idle_device.m_input_selector_control = 0 → ToggleDataSource idle_device kIOReturnSuccess
      = (kIOReturnSuccess, { idle_device with m_input_selector_control := 440 })) ∧
    (ToggleDataSource (ToggleDataSource (ToggleDataSource idle_device kIOReturnSuccess).2
      kIOReturnSuccess).2 kIOReturnSuccess).2 = idle_device) :=
  ⟨by decide, ToggleDataSource_cycles idle_device (by decide)⟩

/-! ## The sample rate: theorems -/

theorem kSampleRate_1_toUInt64 : kSampleRate_1.toUInt64 = some 44100 := by decide!

theorem kSampleRate_2_toUInt64 : kSampleRate_2.toUInt64 = some 48000 := by decide!

/-- The custom branch of `PerformDeviceConfigurationChange`, written out: `current` is the
device's rate converted to `uint64_t`. -/
theorem config_change_custom (k : Nat) (host : ConfigurationChangeHost)
    (s : SimpleAudioDevice) (current : Nat)
    (h_current : (GetSampleRate s).toUInt64 = some current) :
    PerformDeviceConfigurationChange k host s k =
      (let rate_to_set := if current ≠ 44100 then kSampleRate_1 else kSampleRate_2
       let r1 := SetSampleRate s rate_to_set host.set_sample_rate
       if r1.1 = kIOReturnSuccess then
         let r_in := DeviceSampleRateChanged r1.2.m_input_stream rate_to_set
           host.input_rate_changed
         let r_out := DeviceSampleRateChanged r1.2.m_output_stream rate_to_set
           host.output_rate_changed
         some (r_out.1, { r1.2 with m_input_stream := r_in.2, m_output_stream := r_out.2,
                                    m_stream_format := r_in.2.current_format })
       else some (r1.1, { r1.2 with m_stream_format := r1.2.m_input_stream.current_format })) := by
  simp only [PerformDeviceConfigurationChange, h_current, kSampleRate_1_toUInt64, if_true]
  by_cases h : host.set_sample_rate = kIOReturnSuccess
  · simp [SetSampleRate, h, GetCurrentStreamFormat]
  · simp [SetSampleRate, h, GetCurrentStreamFormat]

/-- Claim C5, as amended.  On a device whose sample rate is one of the two rates `init`
makes available, the custom configuration change always returns a result; two such changes
in a row, each returning success, leave the device at the sample rate it started from, and
neither changes the ticks per buffer. -/
theorem config_change_twice_restores_rate (k : Nat) (host1 host2 : ConfigurationChangeHost)
    (s : SimpleAudioDevice)
    (h_rate : GetSampleRate s = kSampleRate_1 ∨ GetSampleRate s = kSampleRate_2) :
    ∃ ret1 s1, PerformDeviceConfigurationChange k host1 s k = some (ret1, s1) ∧
      s1.m_zts_host_ticks_per_buffer = s.m_zts_host_ticks_per_buffer ∧
      (ret1 = kIOReturnSuccess →
        ∃ ret2 s2, PerformDeviceConfigurationChange k host2 s1 k = some (ret2, s2) ∧
          s2.m_zts_host_ticks_per_buffer = s.m_zts_host_ticks_per_buffer ∧
          (ret2 = kIOReturnSuccess → GetSampleRate s2 = GetSampleRate s)) := by
  have step : ∀ (host : ConfigurationChangeHost) (t : SimpleAudioDevice) (current : Nat),
      (GetSampleRate t).toUInt64 = some current →
      ∃ ret t1, PerformDeviceConfigurationChange k host t k = some (ret, t1) ∧
        t1.m_zts_host_ticks_per_buffer = t.m_zts_host_ticks_per_buffer ∧
        (ret = kIOReturnSuccess →
          GetSampleRate t1 = if current ≠ 44100 then kSampleRate_1 else kSampleRate_2) := by
    intro host t current h_current
    rw [config_change_custom k host t current h_current]
    by_cases h : host.set_sample_rate = kIOReturnSuccess
    · simp only [SetSampleRate, h, if_true]
      exact ⟨_, _, rfl, rfl, fun _ => rfl⟩
    · simp only [SetSampleRate, h, if_false]
      exact ⟨_, _, rfl, rfl, fun h_ok => absurd h_ok h⟩
  rcases h_rate with h_rate | h_rate
  · obtain ⟨ret1, s1, h1, h_ticks1, h_rate1⟩ :=
      step host1 s 44100 (by rw [h_rate]; exact kSampleRate_1_toUInt64)
    refine ⟨ret1, s1, h1, h_ticks1, fun h_ok1 => ?_⟩
    have h_s1 : GetSampleRate s1 = kSampleRate_2 := by simpa using h_rate1 h_ok1
    obtain ⟨ret2, s2, h2, h_ticks2, h_rate2⟩ :=
      step host2 s1 48000 (by rw [h_s1]; exact kSampleRate_2_toUInt64)
    refine ⟨ret2, s2, h2, h_ticks2.trans h_ticks1, fun h_ok2 => ?_⟩
    rw [h_rate]
    simpa using h_rate2 h_ok2
  · obtain ⟨ret1, s1, h1, h_ticks1, h_rate1⟩ :=
      step host1 s 48000 (by rw [h_rate]; exact kSampleRate_2_toUInt64)
    refine ⟨ret1, s1, h1, h_ticks1, fun h_ok1 => ?_⟩
    have h_s1 : GetSampleRate s1 = kSampleRate_1 := by simpa using h_rate1 h_ok1
    obtain ⟨ret2, s2, h2, h_ticks2, h_rate2⟩ :=
      step host2 s1 44100 (by rw [h_s1]; exact kSampleRate_1_toUInt64)
    refine ⟨ret2, s2, h2, h_ticks2.trans h_ticks1, fun h_ok2 => ?_⟩
    rw [h_rate]
    simpa using h_rate2 h_ok2

/-- Witness for `config_change_twice_restores_rate`: the started device, at 44100 Hz, and a
framework that accepts both changes. -/
theorem config_change_twice_restores_rate_witness :
    (GetSampleRate started_device = kSampleRate_1 ∨
      GetSampleRate started_device = kSampleRate_2) ∧
    ∃ ret1 s1, PerformDeviceConfigurationChange 1 agreeable_host started_device 1
        = some (ret1, s1) ∧
      s1.m_zts_host_ticks_per_buffer = started_device.m_zts_host_ticks_per_buffer ∧
      (ret1 = kIOReturnSuccess →
        ∃ ret2 s2, PerformDeviceConfigurationChange 1 agreeable_host s1 1 = some (ret2, s2) ∧
          s2.m_zts_host_ticks_per_buffer = started_device.m_zts_host_ticks_per_buffer ∧
          (ret2 = kIOReturnSuccess → GetSampleRate s2 = GetSampleRate started_device)) :=
  ⟨Or.inl rfl,
   config_change_twice_restores_rate 1 agreeable_host agreeable_host started_device
     (Or.inl rfl)⟩

/-- Claim C5 as written fails.  From 96000 Hz the first successful change goes to 44100 Hz
and the second to 48000 Hz, not back to 96000 Hz. -/
theorem config_change_twice_from_other_rate :
    GetSampleRate odd_rate_device = .fin 96000 ∧
    PerformDeviceConfigurationChange 1 agreeable_host odd_rate_device 1
      = some (kIOReturnSuccess, idle_device) ∧
    PerformDeviceConfigurationChange 1 agreeable_host idle_device 1
      = some (kIOReturnSuccess, retuned_idle_device) ∧
    GetSampleRate retuned_idle_device = .fin 48000 := by
  decide!

/-- Claim C6, as amended.  When `SetSampleRate` and `DeviceSampleRateChanged` on both
streams succeed, the custom configuration change returns success with the toggled rate on
the device and on both streams and with the input stream's format, which carries that rate,
as the cached format; the ticks per buffer are the ones the device had before the call. -/
theorem config_change_applies_rate (k : Nat) (host : ConfigurationChangeHost)
    (s : SimpleAudioDevice) (current : Nat)
    (h_current : (GetSampleRate s).toUInt64 = some current)
    (h_set : host.set_sample_rate = kIOReturnSuccess)
    (h_input : host.input_rate_changed = kIOReturnSuccess)
    (h_output : host.output_rate_changed = kIOReturnSuccess) :
    ∃ s1, PerformDeviceConfigurationChange k host s k = some (kIOReturnSuccess, s1) ∧
      GetSampleRate s1 = (if current ≠ 44100 then kSampleRate_1 else kSampleRate_2) ∧
      s1.m_input_stream.current_format.mSampleRate = GetSampleRate s1 ∧
      s1.m_output_stream.current_format.mSampleRate = GetSampleRate s1 ∧
      s1.m_stream_format = GetCurrentStreamFormat s1.m_input_stream ∧
      s1.m_stream_format.mSampleRate = GetSampleRate s1 ∧
      s1.m_zts_host_ticks_per_buffer = s.m_zts_host_ticks_per_buffer := by
  rw [config_change_custom k host s current h_current]
  simp only [SetSampleRate, h_set, h_input, h_output, DeviceSampleRateChanged, if_true]
  exact ⟨_, rfl, rfl, rfl, rfl, rfl, rfl, rfl⟩

/-- Witness for `config_change_applies_rate`: the started device, at 44100 Hz, and a
framework that accepts the change. -/
theorem config_change_applies_rate_witness :
    ((GetSampleRate started_device).toUInt64 = some 44100 ∧
      agreeable_host.set_sample_rate = kIOReturnSuccess ∧
      agreeable_host.input_rate_changed = kIOReturnSuccess ∧
      agreeable_host.output_rate_changed = kIOReturnSuccess) ∧
    ∃ s1, PerformDeviceConfigurationChange 1 agreeable_host started_device 1
        = some (kIOReturnSuccess, s1) ∧
      GetSampleRate s1 = (if 44100 ≠ 44100 then kSampleRate_1 else kSampleRate_2) ∧
      s1.m_input_stream.current_format.mSampleRate = GetSampleRate s1 ∧
      s1.m_output_stream.current_format.mSampleRate = GetSampleRate s1 ∧
      s1.m_stream_format = GetCurrentStreamFormat s1.m_input_stream ∧
      s1.m_stream_format.mSampleRate = GetSampleRate s1 ∧
      s1.m_zts_host_ticks_per_buffer = started_device.m_zts_host_ticks_per_buffer :=
  ⟨⟨by decide!, rfl, rfl, rfl⟩,
   config_change_applies_rate 1 agreeable_host started_device 44100 (by decide!) rfl rfl rfl⟩

/-- Claim C6 as written fails.  The idle device, started on a host whose timebase is
125 / 3, has 278639 ticks per buffer; a successful change to 48000 Hz leaves that number in
place, while `UpdateTimers` computes 256000 from the new rate. -/
theorem config_change_keeps_stale_ticks :
    StartTimers idle_device { numer := 125, denom := 3 } 1000
      = some (kIOReturnSuccess, started_device) ∧
    PerformDeviceConfigurationChange 1 agreeable_host started_device 1
      = some (kIOReturnSuccess, retuned_device) ∧
    retuned_device.m_zts_host_ticks_per_buffer = 278639 ∧
    UpdateTimers retuned_device { numer := 125, denom := 3 }
      = some { retuned_device with m_zts_host_ticks_per_buffer := 256000 } := by
  decide!

/-! ## Floating point: theorems -/

theorem bitLenAux_zero (fuel : Nat) : bitLenAux fuel 0 = 0 := by
  cases fuel <;> simp [bitLenAux]

theorem bitLenAux_spec (fuel : Nat) : ∀ n : Nat, n ≤ fuel → n ≠ 0 →
    2 ^ (bitLenAux fuel n - 1) ≤ n ∧ n < 2 ^ bitLenAux fuel n := by
  induction fuel with
  | zero => intro n h0 h1; omega
  | succ fuel ih =>
    intro n h_le h_ne
    simp only [bitLenAux, if_neg h_ne, Nat.add_sub_cancel]
    by_cases h_half : n / 2 = 0
    · have h_one : n = 1 := by omega
      subst h_one
      simp [bitLenAux_zero]
    · obtain ⟨h_lo, h_hi⟩ := ih (n / 2) (by omega) h_half
      have h_pos : 0 < bitLenAux fuel (n / 2) := by
        rcases Nat.eq_zero_or_pos (bitLenAux fuel (n / 2)) with h | h
        · rw [h] at h_hi; simp at h_hi; omega
        · exact h
      obtain ⟨b, hb⟩ : ∃ b, bitLenAux fuel (n / 2) = b + 1 := ⟨_, (Nat.succ_pred_eq_of_pos h_pos).symm⟩
      rw [hb] at h_lo h_hi ⊢
      simp only [Nat.add_sub_cancel] at h_lo
      constructor
      · rw [pow_succ]; omega
      · rw [pow_succ]; omega

theorem bitLen_spec (n : Nat) (h : n ≠ 0) : 2 ^ (bitLen n - 1) ≤ n ∧ n < 2 ^ bitLen n :=
  bitLenAux_spec n n le_rfl h

theorem abs_eq_natAbs_div (q : ℚ) : |q| = (q.num.natAbs : ℚ) / (q.den : ℚ) := by
  conv_lhs => rw [← Rat.num_div_den q]
  rw [abs_div, Nat.abs_cast, Nat.cast_natAbs, Int.cast_abs]

theorem ilog2_le (q : ℚ) (hq : q ≠ 0) : (2 : ℚ) ^ ilog2 q ≤ |q| := by
  unfold ilog2
  simp only
  split_ifs with h
  · exact h
  · have h_num : q.num.natAbs ≠ 0 := by
      simpa [Int.natAbs_eq_zero] using hq
    obtain ⟨h_a, -⟩ := bitLen_spec q.num.natAbs h_num
    obtain ⟨-, h_b⟩ := bitLen_spec q.den q.den_ne_zero
    have h_la : 1 ≤ bitLen q.num.natAbs := by
      rcases Nat.eq_zero_or_pos (bitLen q.num.natAbs) with h0 | h0
      · have := (bitLen_spec q.num.natAbs h_num).2
        rw [h0, pow_zero] at this; omega
      · exact h0
    have h_a' : ((2 : ℚ) ^ (bitLen q.num.natAbs - 1)) ≤ (q.num.natAbs : ℚ) := by
      exact_mod_cast h_a
    have h_b' : (q.den : ℚ) ≤ (2 : ℚ) ^ (bitLen q.den) := by
      exact_mod_cast h_b.le
    have h_den_pos : (0 : ℚ) < q.den := by exact_mod_cast q.den_pos
    have h_exp : ((bitLen q.num.natAbs : ℤ) - (bitLen q.den : ℤ) - 1)
        = ((bitLen q.num.natAbs - 1 : ℕ) : ℤ) - ((bitLen q.den : ℕ) : ℤ) := by
      omega
    rw [h_exp, zpow_sub₀ (by norm_num : (2 : ℚ) ≠ 0), zpow_natCast, zpow_natCast,
      abs_eq_natAbs_div]
    exact div_le_div₀ (by positivity) h_a' h_den_pos h_b'

/-- The exponent `ilog2` finds is the binary exponent: `|q|` is below the next power of
two (and, by `ilog2_le`, not below `2 ^ ilog2 q`). -/
theorem lt_ilog2_succ (q : ℚ) (hq : q ≠ 0) : |q| < (2 : ℚ) ^ (ilog2 q + 1) := by
  unfold ilog2
  simp only
  split_ifs with h
  · have h_num : q.num.natAbs ≠ 0 := by
      simpa [Int.natAbs_eq_zero] using hq
    obtain ⟨-, h_a⟩ := bitLen_spec q.num.natAbs h_num
    obtain ⟨h_b, -⟩ := bitLen_spec q.den q.den_ne_zero
    have h_lb : 1 ≤ bitLen q.den := by
      rcases Nat.eq_zero_or_pos (bitLen q.den) with h0 | h0
      · have := (bitLen_spec q.den q.den_ne_zero).2
        rw [h0, pow_zero] at this
        have := q.den_pos
        omega
      · exact h0
    have h_a' : (q.num.natAbs : ℚ) < (2 : ℚ) ^ (bitLen q.num.natAbs) := by
      exact_mod_cast h_a
    have h_b' : ((2 : ℚ) ^ (bitLen q.den - 1)) ≤ (q.den : ℚ) := by
      exact_mod_cast h_b
    have h_den_pos : (0 : ℚ) < q.den := by exact_mod_cast q.den_pos
    have h_exp : ((bitLen q.num.natAbs : ℤ) - (bitLen q.den : ℤ) + 1)
        = ((bitLen q.num.natAbs : ℕ) : ℤ) - ((bitLen q.den - 1 : ℕ) : ℤ) := by
      omega
    rw [h_exp, zpow_sub₀ (by norm_num : (2 : ℚ) ≠ 0), zpow_natCast, zpow_natCast,
      abs_eq_natAbs_div]
    exact div_lt_div₀ h_a' h_b' (by positivity) (by positivity)
  · rw [sub_add_cancel]
    exact not_le.mp h

/-- The `float` nearest to one third is `0x3eaaaaab`. -/
theorem round_binary32_third : Flt.round 24 127 (1 / 3) = .fin (11184811 / 33554432) := by
  decide!

/-- The `double` nearest to one tenth is `0x3fb999999999999a`. -/
theorem round_binary64_tenth :
    Flt.round 53 1023 (1 / 10) = .fin (3602879701896397 / 36028797018963968) := by
  decide!

theorem roundNearestEven_le (x : ℚ) (B : ℤ) (h : x ≤ B) : roundNearestEven x ≤ B := by
  have h_floor : ⌊x⌋ ≤ B := by
    have := Int.floor_le x
    exact_mod_cast this.trans h
  unfold roundNearestEven
  simp only
  rcases h_floor.lt_or_eq with h_lt | h_eq
  · split_ifs <;> omega
  · have h_frac : x - (⌊x⌋ : ℚ) < 1 / 2 := by
      rw [h_eq]
      linarith
    rw [if_pos h_frac]
    exact h_floor

theorem le_roundNearestEven (x : ℚ) (B : ℤ) (h : (B : ℚ) ≤ x) : B ≤ roundNearestEven x := by
  have h_floor : B ≤ ⌊x⌋ := Int.le_floor.mpr h
  unfold roundNearestEven
  simp only
  split_ifs <;> omega

theorem roundNearestEven_scaled (q : ℚ) (j : ℕ) (lo hi : ℤ) (h_lo : (lo : ℚ) ≤ q)
    (h_hi : q ≤ hi) :
    (lo : ℚ) ≤ (roundNearestEven (q * 2 ^ j) : ℚ) / 2 ^ j ∧
    (roundNearestEven (q * 2 ^ j) : ℚ) / 2 ^ j ≤ hi := by
  have h_pow : (0 : ℚ) < 2 ^ j := by positivity
  have h1 : lo * 2 ^ j ≤ roundNearestEven (q * 2 ^ j) := by
    apply le_roundNearestEven
    push_cast
    exact mul_le_mul_of_nonneg_right h_lo h_pow.le
  have h2 : roundNearestEven (q * 2 ^ j) ≤ hi * 2 ^ j := by
    apply roundNearestEven_le
    push_cast
    exact mul_le_mul_of_nonneg_right h_hi h_pow.le
  constructor
  · rw [le_div_iff₀ h_pow]
    exact_mod_cast h1
  · rw [div_le_iff₀ h_pow]
    exact_mod_cast h2

theorem round_binary32_bounds (q : ℚ) (lo hi : ℤ) (h_lo : (lo : ℚ) ≤ q) (h_hi : q ≤ hi)
    (h_small : |q| < 2 ^ 24) :
    ∃ r : ℚ, Flt.round 24 127 q = .fin r ∧ (lo : ℚ) ≤ r ∧ r ≤ hi := by
  unfold Flt.round
  by_cases hq : q = 0
  · subst hq
    exact ⟨0, by simp, h_lo, h_hi⟩
  · simp only [if_neg hq]
    have h_log : ilog2 q < 24 := by
      have h := (ilog2_le q hq).trans_lt h_small
      have h24 : (2 : ℚ) ^ (24 : ℕ) = (2 : ℚ) ^ (24 : ℤ) := by norm_num
      rw [h24] at h
      exact (zpow_lt_zpow_iff_right₀ (by norm_num : (1 : ℚ) < 2)).mp h
    obtain ⟨j, hj⟩ : ∃ j : ℕ, max (ilog2 q) (1 - 127) - (((24 : ℕ) : ℤ) - 1) = -(j : ℤ) := by
      refine ⟨(-(max (ilog2 q) (1 - 127) - (((24 : ℕ) : ℤ) - 1))).toNat, ?_⟩
      rw [Int.toNat_of_nonneg]
      · ring
      · have : max (ilog2 q) (1 - 127) ≤ 23 := max_le (by omega) (by norm_num)
        push_cast
        omega
    rw [hj]
    have h_ulp : (2 : ℚ) ^ (-(j : ℤ)) = ((2 : ℚ) ^ j)⁻¹ := by
      rw [zpow_neg, zpow_natCast]
    rw [h_ulp, div_inv_eq_mul, ← div_eq_mul_inv]
    obtain ⟨h1, h2⟩ := roundNearestEven_scaled q j lo hi h_lo h_hi
    have h_abs := abs_lt.mp h_small
    obtain ⟨h3, h4⟩ := roundNearestEven_scaled q j (-(2 ^ 24)) (2 ^ 24)
      (by push_cast; linarith [h_abs.1]) (by push_cast; linarith [h_abs.2])
    have h_no_overflow : ¬ ((2 : ℚ) ^ ((127 : ℤ) + 1) ≤
        |(roundNearestEven (q * 2 ^ j) : ℚ) / 2 ^ j|) := by
      rw [not_le, abs_lt]
      push_cast at h3 h4
      constructor
      · calc -(2 : ℚ) ^ ((127 : ℤ) + 1) < -(2 ^ 24) := by norm_num
          _ ≤ _ := h3
      · calc _ ≤ (2 : ℚ) ^ 24 := h4
          _ < (2 : ℚ) ^ ((127 : ℤ) + 1) := by norm_num
    rw [if_neg h_no_overflow]
    exact ⟨_, rfl, h1, h2⟩

theorem trunc_bounds (r : ℚ) (lo hi : ℤ) (h_lo : (lo : ℚ) ≤ r) (h_hi : r ≤ hi) :
    ∃ t, (Flt.fin r).trunc = some t ∧ lo ≤ t ∧ t ≤ hi := by
  unfold Flt.trunc
  by_cases h : 0 ≤ r
  · refine ⟨⌊r⌋, by simp [h], Int.le_floor.mpr h_lo, ?_⟩
    have := Int.floor_le r
    exact_mod_cast this.trans h_hi
  · refine ⟨-⌊-r⌋, by simp [h], ?_, ?_⟩
    · have := Int.floor_le (-r)
      have h2 : ((⌊-r⌋ : ℤ) : ℚ) ≤ -lo := by linarith
      have h3 : ⌊-r⌋ ≤ -lo := by exact_mod_cast h2
      omega
    · have h2 : ((-hi : ℤ) : ℚ) ≤ -r := by push_cast; linarith
      have h3 := Int.le_floor.mpr h2
      omega

theorem f32_mul_toInt16 (a b : ℚ) (lo hi : ℤ) (h_lo : (lo : ℚ) ≤ a * b)
    (h_hi : a * b ≤ hi) (h_min : -32768 ≤ lo) (h_max : hi ≤ 32767) :
    ∃ v : int16_t, (f32_mul (.fin a) (.fin b)).toInt16 = some v ∧ lo ≤ v.val ∧ v.val ≤ hi := by
  have h_small : |a * b| < 2 ^ 24 := by
    have h1 : ((-32768 : ℤ) : ℚ) ≤ lo := by exact_mod_cast h_min
    have h2 : (hi : ℚ) ≤ ((32767 : ℤ) : ℚ) := by exact_mod_cast h_max
    push_cast at h1 h2
    rw [abs_lt]
    constructor <;> linarith
  obtain ⟨r, h_r, h_r_lo, h_r_hi⟩ := round_binary32_bounds (a * b) lo hi h_lo h_hi h_small
  obtain ⟨t, h_t, h_t_lo, h_t_hi⟩ := trunc_bounds r lo hi h_r_lo h_r_hi
  have h_range : -32768 ≤ t ∧ t ≤ 32767 := ⟨by omega, by omega⟩
  refine ⟨⟨t, h_range⟩, ?_, h_t_lo, h_t_hi⟩
  simp only [f32_mul, Flt.mul, h_r, Flt.toInt16, h_t, dif_pos h_range]

/-- Claim C9, as amended.  For every input other than a NaN, `FloatToInt16` returns a value
between -32767 and 32767: exactly 32767 when the input is at least 1.0 and exactly -32767
when it is at most -1.0 (the infinities included). -/
theorem FloatToInt16_saturates (in_sample : Flt) (h : in_sample ≠ .nan) :
    ∃ r : int16_t, FloatToInt16 in_sample = some r ∧ -32767 ≤ r.val ∧ r.val ≤ 32767 ∧
      (Flt.le (.fin 1) in_sample = true → r.val = 32767) ∧
      (Flt.le in_sample (.fin (-1)) = true → r.val = -32767) := by
  have h_top : ∃ v : int16_t, (f32_mul (.fin 1) (.fin 0x7fff)).toInt16 = some v ∧
      (32767 : ℤ) ≤ v.val ∧ v.val ≤ 32767 :=
    f32_mul_toInt16 1 0x7fff 32767 32767 (by norm_num) (by norm_num) (by norm_num)
      (by norm_num)
  have h_bottom : ∃ v : int16_t, (f32_mul (.fin (-1)) (.fin 0x7fff)).toInt16 = some v ∧
      (-32767 : ℤ) ≤ v.val ∧ v.val ≤ -32767 :=
    f32_mul_toInt16 (-1) 0x7fff (-32767) (-32767) (by norm_num) (by norm_num) (by norm_num)
      (by norm_num)
  cases in_sample with
  | nan => exact absurd rfl h
  | inf neg =>
    cases neg
    · obtain ⟨v, h_v, h1, h2⟩ := h_top
      refine ⟨v, ?_, by omega, by omega, fun _ => by omega, ?_⟩
      · simpa [FloatToInt16, Flt.gt] using h_v
      · simp [Flt.le]
    · obtain ⟨v, h_v, h1, h2⟩ := h_bottom
      refine ⟨v, ?_, by omega, by omega, ?_, fun _ => by omega⟩
      · simpa [FloatToInt16, Flt.gt, Flt.lt] using h_v
      · simp [Flt.le]
  | fin q =>
    by_cases h_gt : 1 < q
    · obtain ⟨v, h_v, h1, h2⟩ := h_top
      refine ⟨v, ?_, by omega, by omega, fun _ => by omega, ?_⟩
      · simpa [FloatToInt16, Flt.gt, h_gt] using h_v
      · simp only [Flt.le, decide_eq_true_eq]
        intro h_le
        linarith
    · by_cases h_lt : q < -1
      · obtain ⟨v, h_v, h1, h2⟩ := h_bottom
        refine ⟨v, ?_, by omega, by omega, ?_, fun _ => by omega⟩
        · simpa [FloatToInt16, Flt.gt, Flt.lt, h_gt, h_lt] using h_v
        · simp only [Flt.le, decide_eq_true_eq]
          intro h_le
          linarith
      · have h_hi : q ≤ 1 := not_lt.mp h_gt
        have h_lo : -1 ≤ q := not_lt.mp h_lt
        have h_call : FloatToInt16 (.fin q) = (f32_mul (.fin q) (.fin 0x7fff)).toInt16 := by
          simp [FloatToInt16, Flt.gt, Flt.lt, h_gt, h_lt]
        rw [h_call]
        obtain ⟨v, h_v, h1, h2⟩ := f32_mul_toInt16 q 0x7fff (-32767) 32767
          (by push_cast; linarith) (by push_cast; linarith) (by norm_num) (by norm_num)
        refine ⟨v, h_v, h1, h2, ?_, ?_⟩
        · simp only [Flt.le, decide_eq_true_eq]
          intro h_le
          have h_one : q = 1 := le_antisymm h_hi h_le
          subst h_one
          obtain ⟨w, h_w, h3, h4⟩ := h_top
          rw [h_w] at h_v
          cases h_v
          omega
        · simp only [Flt.le, decide_eq_true_eq]
          intro h_le
          have h_one : q = -1 := le_antisymm h_le h_lo
          subst h_one
          obtain ⟨w, h_w, h3, h4⟩ := h_bottom
          rw [h_w] at h_v
          cases h_v
          omega

/-- Witness for `FloatToInt16_saturates`: the input 1.5. -/
theorem FloatToInt16_saturates_witness :
    Flt.fin (3 / 2) ≠ .nan ∧
    ∃ r : int16_t, FloatToInt16 (.fin (3 / 2)) = some r ∧ -32767 ≤ r.val ∧ r.val ≤ 32767 ∧
      (Flt.le (.fin 1) (.fin (3 / 2)) = true → r.val = 32767) ∧
      (Flt.le (.fin (3 / 2)) (.fin (-1)) = true → r.val = -32767) :=
  ⟨by simp, FloatToInt16_saturates (.fin (3 / 2)) (by simp)⟩

/-- Claim C9 as written fails.  A NaN passes both comparisons of the clamp, its product
with `0x7fff` is a NaN, and the conversion of a NaN to `int16_t` has no defined result. -/
theorem FloatToInt16_nan :
    Flt.gt .nan (.fin 1) = false ∧ Flt.lt .nan (.fin (-1)) = false ∧
    f32_mul .nan (.fin 0x7fff) = .nan ∧ FloatToInt16 .nan = none := by
  decide

/-! ## The I/O callback: theorems -/

/-- Claim C10.  A begin-read cycle in loopback mode with the input or the output mapping
absent returns `kIOReturnNoMemory` and leaves the whole device as it was. -/
theorem io_operation_loopback_unmapped (sin : Flt → Flt) (s : SimpleAudioDevice)
    (in_io_buffer_frame_size in_sample_time : Nat)
    (h_loopback : s.m_input_selector_control = 0)
    (h_unmapped : s.m_input_memory_map = none ∨ s.m_output_memory_map = none) :
    io_operation sin s .BeginRead in_io_buffer_frame_size in_sample_time
      = some (kIOReturnNoMemory, s) := by
  rcases h_unmapped with h | h
  · simp [io_operation, h_loopback, h]
  · cases h_in : s.m_input_memory_map <;> simp [io_operation, h_loopback, h, h_in]

/-- Witness for `io_operation_loopback_unmapped`: a cycle of 512 frames at sample time 1024
on a device without mappings. -/
theorem io_operation_loopback_unmapped_witness :
    (loopback_unmapped_device.m_input_selector_control = 0 ∧
      (loopback_unmapped_device.m_input_memory_map = none ∨
        loopback_unmapped_device.m_output_memory_map = none)) ∧
    io_operation flat_sine loopback_unmapped_device .BeginRead 512 1024
      = some (kIOReturnNoMemory, loopback_unmapped_device) :=
  ⟨⟨by decide, Or.inl (by decide)⟩,
   io_operation_loopback_unmapped flat_sine loopback_unmapped_device 512 1024 (by decide)
     (Or.inl (by decide))⟩

theorem unit_gain_exact (sample : int16_t) :
    (f32_mul (.fin 1) (f32_ofInt16 sample)).toInt16 = some sample := by
  obtain ⟨v, h_v, h1, h2⟩ := f32_mul_toInt16 1 (sample.val : ℚ) sample.val sample.val
    (by simp) (by simp) sample.property.1 sample.property.2
  have h_eq : v = sample := Subtype.ext (le_antisymm h2 h1)
  rw [h_eq] at h_v
  simpa [f32_ofInt16] using h_v

theorem loopbackLoop_copies (format : IOUserAudioStreamBasicDescription)
    (output_buffer : List int16_t) (in_sample_time : Nat)
    (h_pos : 0 < output_buffer.length) :
    ∀ (count i : Nat) (input_buffer : List int16_t),
      input_buffer.length = output_buffer.length →
      ∃ result, loopbackLoop format (.fin 1) output_buffer output_buffer.length
          output_buffer.length in_sample_time count i input_buffer = some result ∧
        result.length = output_buffer.length ∧
        (∀ j : Nat, result[j]? = output_buffer[j]? ∨ result[j]? = input_buffer[j]?) ∧
        (∀ k : Nat, i ≤ k → k < i + count →
          result[(format.mChannelsPerFrame * in_sample_time % 2 ^ 64 + k) % 2 ^ 64
              % output_buffer.length]?
            = output_buffer[(format.mChannelsPerFrame * in_sample_time % 2 ^ 64 + k) % 2 ^ 64
              % output_buffer.length]?) := by
  intro count
  induction count with
  | zero =>
    intro i input_buffer h_len
    exact ⟨input_buffer, rfl, h_len, fun j => Or.inr rfl, fun k h1 h2 => by omega⟩
  | succ count ih =>
    intro i input_buffer h_len
    have h_idx : (format.mChannelsPerFrame * in_sample_time % 2 ^ 64 + i) % 2 ^ 64
        % output_buffer.length < output_buffer.length := Nat.mod_lt _ h_pos
    obtain ⟨sample, h_sample⟩ : ∃ sample,
        output_buffer[(format.mChannelsPerFrame * in_sample_time % 2 ^ 64 + i) % 2 ^ 64
          % output_buffer.length]? = some sample :=
      ⟨_, List.getElem?_eq_getElem h_idx⟩
    have h_stored : ∀ buffer : List int16_t, buffer.length = output_buffer.length →
        (buffer.set ((format.mChannelsPerFrame * in_sample_time % 2 ^ 64 + i) % 2 ^ 64
          % output_buffer.length) sample)[(format.mChannelsPerFrame * in_sample_time % 2 ^ 64
            + i) % 2 ^ 64 % output_buffer.length]? = some sample := by
      intro buffer h_buffer
      exact List.getElem?_set_self (by rw [h_buffer]; exact h_idx)
    obtain ⟨result, h_run, h_res_len, h_from, h_copied⟩ :=
      ih (i + 1) (input_buffer.set
        ((format.mChannelsPerFrame * in_sample_time % 2 ^ 64 + i) % 2 ^ 64
          % output_buffer.length) sample) (by simpa using h_len)
    have h_step : loopbackSample format (.fin 1) output_buffer output_buffer.length
        output_buffer.length in_sample_time i input_buffer
        = some (input_buffer.set
          ((format.mChannelsPerFrame * in_sample_time % 2 ^ 64 + i) % 2 ^ 64
            % output_buffer.length) sample) := by
      simp only [loopbackSample, Nat.pos_iff_ne_zero.mp h_pos, or_self, if_false,
        h_sample, unit_gain_exact, storeSample, h_len, h_idx, if_true]
    refine ⟨result, ?_, h_res_len, ?_, ?_⟩
    · simp only [loopbackLoop, h_step, h_run]
    · intro j
      rcases h_from j with h | h
      · exact Or.inl h
      · by_cases h_j : (format.mChannelsPerFrame * in_sample_time % 2 ^ 64 + i) % 2 ^ 64
            % output_buffer.length = j
        · left
          rw [h, ← h_j, h_stored input_buffer h_len, h_sample]
        · right
          rw [h, List.getElem?_set_ne h_j]
    · intro k h1 h2
      rcases Nat.eq_or_lt_of_le h1 with h_eq | h_lt
      · subst h_eq
        rcases h_from ((format.mChannelsPerFrame * in_sample_time % 2 ^ 64 + i) % 2 ^ 64
            % output_buffer.length) with h | h
        · exact h
        · rw [h, h_stored input_buffer h_len, h_sample]
      · exact h_copied k (by omega) (by omega)

/-- Claim C7, as amended.  In loopback mode, with both buffers mapped with the same
non-zero number of slots, a gain of 1.0 and a 32-bit product `channels * frame_size` below
`2 ^ 31`, a begin-read cycle returns success and changes the input buffer only; afterwards,
for every `i` below that product, the input slot `(channels * sample_time + i) mod length`
(the sum taken in 64 bits) holds the sample of the output slot of the same index. -/
theorem io_operation_loopback_copies (sin : Flt → Flt) (s : SimpleAudioDevice)
    (in_io_buffer_frame_size in_sample_time : Nat) (input_map output_map : IOMemoryMap)
    (h_loopback : s.m_input_selector_control = 0)
    (h_input : s.m_input_memory_map = some input_map)
    (h_output : s.m_output_memory_map = some output_map)
    (h_gain : s.m_input_volume_control = .fin 1)
    (h_same : input_map.samples.length = output_map.samples.length)
    (h_pos : 0 < output_map.samples.length)
    (h_count : s.m_stream_format.mChannelsPerFrame * in_io_buffer_frame_size % 2 ^ 32
      < 2 ^ 31) :
    ∃ input_buffer : List int16_t,
      io_operation sin s .BeginRead in_io_buffer_frame_size in_sample_time
        = some (kIOReturnSuccess,
            { s with m_input_memory_map := some { samples := input_buffer } }) ∧
      input_buffer.length = input_map.samples.length ∧
      ∀ i : Nat, i < s.m_stream_format.mChannelsPerFrame * in_io_buffer_frame_size % 2 ^ 32 →
        ∃ sample,
          input_buffer[(s.m_stream_format.mChannelsPerFrame * in_sample_time % 2 ^ 64 + i)
            % 2 ^ 64 % input_buffer.length]? = some sample ∧
          output_map.samples[(s.m_stream_format.mChannelsPerFrame * in_sample_time % 2 ^ 64
            + i) % 2 ^ 64 % output_map.samples.length]? = some sample := by
  obtain ⟨result, h_run, h_len, -, h_copied⟩ :=
    loopbackLoop_copies s.m_stream_format output_map.samples in_sample_time h_pos
      (s.m_stream_format.mChannelsPerFrame * in_io_buffer_frame_size % 2 ^ 32) 0
      input_map.samples h_same
  refine ⟨result, ?_, h_len.trans h_same.symm, ?_⟩
  · have h_half : ∀ n : Nat, 2 * n / 2 = n := fun n => by omega
    simp only [io_operation, h_loopback, h_input, h_output, h_gain, if_true,
      IOMemoryMap.GetLength, h_half, h_same, not_le.mpr h_count, if_false, h_run]
  · intro i h_i
    have h_idx : (s.m_stream_format.mChannelsPerFrame * in_sample_time % 2 ^ 64 + i) % 2 ^ 64
        % output_map.samples.length < output_map.samples.length := Nat.mod_lt _ h_pos
    obtain ⟨sample, h_sample⟩ : ∃ sample,
        output_map.samples[(s.m_stream_format.mChannelsPerFrame * in_sample_time % 2 ^ 64 + i)
          % 2 ^ 64 % output_map.samples.length]? = some sample :=
      ⟨_, List.getElem?_eq_getElem h_idx⟩
    refine ⟨sample, ?_, h_sample⟩
    rw [h_len, h_copied i (Nat.zero_le i) (by omega), h_sample]

/-- Witness for `io_operation_loopback_copies`: two frames at sample time 3 on two buffers of
four slots. -/
theorem io_operation_loopback_copies_witness :
    (loopback_device.m_input_selector_control = 0 ∧
      loopback_device.m_input_memory_map = some { samples := [⟨0, by decide⟩, ⟨0, by decide⟩,
        ⟨0, by decide⟩, ⟨0, by decide⟩] } ∧
      loopback_device.m_output_memory_map = some { samples := [⟨10, by decide⟩,
        ⟨20, by decide⟩, ⟨30, by decide⟩, ⟨40, by decide⟩] } ∧
      loopback_device.m_input_volume_control = .fin 1 ∧
      ([⟨0, by decide⟩, ⟨0, by decide⟩, ⟨0, by decide⟩, ⟨0, by decide⟩] :
        List int16_t).length
        = ([⟨10, by decide⟩, ⟨20, by decide⟩, ⟨30, by decide⟩, ⟨40, by decide⟩] :
          List int16_t).length ∧
      0 < ([⟨10, by decide⟩, ⟨20, by decide⟩, ⟨30, by decide⟩, ⟨40, by decide⟩] :
        List int16_t).length ∧
      loopback_device.m_stream_format.mChannelsPerFrame * 2 % 2 ^ 32 < 2 ^ 31) ∧
    ∃ input_buffer : List int16_t,
      io_operation flat_sine loopback_device .BeginRead 2 3
        = some (kIOReturnSuccess,
            { loopback_device with m_input_memory_map := some { samples := input_buffer } }) ∧
      input_buffer.length = 4 ∧
      ∀ i : Nat, i < loopback_device.m_stream_format.mChannelsPerFrame * 2 % 2 ^ 32 →
        ∃ sample,
          input_buffer[(loopback_device.m_stream_format.mChannelsPerFrame * 3 % 2 ^ 64 + i)
            % 2 ^ 64 % input_buffer.length]? = some sample ∧
          ([⟨10, by decide⟩, ⟨20, by decide⟩, ⟨30, by decide⟩, ⟨40, by decide⟩] :
            List int16_t)[(loopback_device.m_stream_format.mChannelsPerFrame * 3 % 2 ^ 64
              + i) % 2 ^ 64 % 4]? = some sample :=
  ⟨⟨rfl, rfl, rfl, rfl, rfl, by decide, by decide⟩,
   io_operation_loopback_copies flat_sine loopback_device 2 3
     { samples := [⟨0, by decide⟩, ⟨0, by decide⟩, ⟨0, by decide⟩, ⟨0, by decide⟩] }
     { samples := [⟨10, by decide⟩, ⟨20, by decide⟩, ⟨30, by decide⟩, ⟨40, by decide⟩] }
     rfl rfl rfl rfl rfl (by decide) (by decide)⟩

/-- Claim C7 as written fails.  With an input buffer of one slot and an output buffer of two
slots holding 10 and 20, a cycle of two frames at sample time 0 returns success and leaves
20 in input slot `0 mod 1`, while output slot `0 mod 2` holds 10.  With two mapped buffers
of length zero the remainder has no defined result, and with a frame size of `2 ^ 31` the
`int` loop counter overflows: neither cycle returns success. -/
theorem loopback_slot_overwritten :
    (io_operation flat_sine mismatched_device .BeginRead 2 0
        = some (kIOReturnSuccess, { mismatched_device with
            m_input_memory_map := some { samples := [⟨20, by decide⟩] } }) ∧
      ([⟨20, by decide⟩] : List int16_t)[(1 * 0 % 2 ^ 64 + 0) % 2 ^ 64 % 1]?
        = some ⟨20, by decide⟩ ∧
      ([⟨10, by decide⟩, ⟨20, by decide⟩] : List int16_t)[(1 * 0 % 2 ^ 64 + 0) % 2 ^ 64 % 2]?
        = some ⟨10, by decide⟩) ∧
    io_operation flat_sine empty_buffers_device .BeginRead 1 0 = none ∧
    io_operation flat_sine loopback_device .BeginRead (2 ^ 31) 0 = none := by
  decide!

/-! ## The tone generator: theorems -/

theorem toneSample_congr (sin : Flt → Flt) (format : IOUserAudioStreamBasicDescription)
    (input_volume_level in_tone_freq : Flt) (buffer_length t1 i1 t2 i2 : Nat)
    (st : List int16_t × Nat) (h : (t1 + i1) % 2 ^ 64 = (t2 + i2) % 2 ^ 64) :
    toneSample sin format input_volume_level in_tone_freq buffer_length t1 i1 st
      = toneSample sin format input_volume_level in_tone_freq buffer_length t2 i2 st := by
  simp only [toneSample, h]

theorem toneLoop_congr (sin : Flt → Flt) (format : IOUserAudioStreamBasicDescription)
    (input_volume_level in_tone_freq : Flt) (buffer_length t1 t2 : Nat) :
    ∀ (count i1 i2 : Nat) (st : List int16_t × Nat),
      (t1 + i1) % 2 ^ 64 = (t2 + i2) % 2 ^ 64 →
      toneLoop sin format input_volume_level in_tone_freq buffer_length t1 count i1 st
        = toneLoop sin format input_volume_level in_tone_freq buffer_length t2 count i2 st := by
  intro count
  induction count with
  | zero => intro i1 i2 st _; rfl
  | succ count ih =>
    intro i1 i2 st h
    simp only [toneLoop]
    rw [toneSample_congr sin format input_volume_level in_tone_freq buffer_length t1 i1 t2 i2
      st h]
    cases toneSample sin format input_volume_level in_tone_freq buffer_length t2 i2 st with
    | none => rfl
    | some st1 =>
      simp only
      apply ih
      omega

theorem toneLoop_add (sin : Flt → Flt) (format : IOUserAudioStreamBasicDescription)
    (input_volume_level in_tone_freq : Flt) (buffer_length t n2 : Nat) :
    ∀ (n1 i : Nat) (st : List int16_t × Nat),
      toneLoop sin format input_volume_level in_tone_freq buffer_length t (n1 + n2) i st
        = (toneLoop sin format input_volume_level in_tone_freq buffer_length t n1 i st).bind
            (toneLoop sin format input_volume_level in_tone_freq buffer_length t n2 (i + n1)) := by
  intro n1
  induction n1 with
  | zero => intro i st; simp [toneLoop]
  | succ n1 ih =>
    intro i st
    rw [show n1 + 1 + n2 = (n1 + n2) + 1 by omega]
    simp only [toneLoop]
    cases toneSample sin format input_volume_level in_tone_freq buffer_length t i st with
    | none => rfl
    | some st1 =>
      simp only
      rw [ih (i + 1) st1, show i + 1 + n1 = i + (n1 + 1) by omega]

theorem toneChannels_length (format : IOUserAudioStreamBasicDescription)
    (buffer_length frame : Nat) (integer_value : int16_t) :
    ∀ (count channel_index : Nat) (buffer result : List int16_t),
      toneChannels format buffer_length frame integer_value count channel_index buffer
        = some result → result.length = buffer.length := by
  intro count
  induction count with
  | zero => intro c buffer result h; simp only [toneChannels] at h; cases h; rfl
  | succ count ih =>
    intro c buffer result h
    simp only [toneChannels] at h
    split_ifs at h with h0
    cases h_store : storeSample buffer
        ((format.mChannelsPerFrame * frame % 2 ^ 64 + c) % 2 ^ 64 % buffer_length)
        integer_value with
    | none => rw [h_store] at h; cases h
    | some buffer1 =>
      rw [h_store] at h
      simp only at h
      have h1 := ih (c + 1) buffer1 result h
      simp only [storeSample] at h_store
      split_ifs at h_store
      cases h_store
      simpa using h1

theorem toneSample_spec (sin : Flt → Flt) (format : IOUserAudioStreamBasicDescription)
    (input_volume_level in_tone_freq : Flt) (buffer_length t i : Nat)
    (st st1 : List int16_t × Nat)
    (h : toneSample sin format input_volume_level in_tone_freq buffer_length t i st = some st1) :
    st1.1.length = st.1.length ∧ st1.2 = (st.2 + 1) % 2 ^ 64 := by
  simp only [toneSample] at h
  split at h
  · cases h
  · split_ifs at h
    split at h
    · rename_i buffer1 h_channels
      cases h
      exact ⟨toneChannels_length _ _ _ _ _ _ _ _ h_channels, rfl⟩
    · cases h

theorem toneLoop_spec (sin : Flt → Flt) (format : IOUserAudioStreamBasicDescription)
    (input_volume_level in_tone_freq : Flt) (buffer_length t : Nat) :
    ∀ (count i : Nat) (st st1 : List int16_t × Nat), st.2 < 2 ^ 64 →
      toneLoop sin format input_volume_level in_tone_freq buffer_length t count i st = some st1 →
      st1.1.length = st.1.length ∧ st1.2 = (st.2 + count) % 2 ^ 64 := by
  intro count
  induction count with
  | zero =>
    intro i st st1 h_lt h
    simp only [toneLoop] at h
    cases h
    exact ⟨rfl, by rw [Nat.add_zero, Nat.mod_eq_of_lt h_lt]⟩
  | succ count ih =>
    intro i st st1 h_lt h
    simp only [toneLoop] at h
    cases h_sample : toneSample sin format input_volume_level in_tone_freq buffer_length t i
        st with
    | none => rw [h_sample] at h; cases h
    | some st2 =>
      rw [h_sample] at h
      simp only at h
      obtain ⟨h_len2, h_idx2⟩ := toneSample_spec _ _ _ _ _ _ _ _ _ h_sample
      obtain ⟨h_len1, h_idx1⟩ := ih (i + 1) st2 st1
        (by rw [h_idx2]; exact Nat.mod_lt _ (by norm_num)) h
      refine ⟨h_len1.trans h_len2, ?_⟩
      rw [h_idx1, h_idx2]
      omega

theorem toneLoop_length (sin : Flt → Flt) (format : IOUserAudioStreamBasicDescription)
    (input_volume_level in_tone_freq : Flt) (buffer_length t : Nat) :
    ∀ (count i : Nat) (st st1 : List int16_t × Nat),
      toneLoop sin format input_volume_level in_tone_freq buffer_length t count i st = some st1 →
      st1.1.length = st.1.length := by
  intro count
  induction count with
  | zero =>
    intro i st st1 h
    simp only [toneLoop] at h
    cases h
    rfl
  | succ count ih =>
    intro i st st1 h
    simp only [toneLoop] at h
    cases h_sample : toneSample sin format input_volume_level in_tone_freq buffer_length t i
        st with
    | none => rw [h_sample] at h; cases h
    | some st2 =>
      rw [h_sample] at h
      simp only at h
      exact (ih (i + 1) st2 st1 h).trans (toneSample_spec _ _ _ _ _ _ _ _ _ h_sample).1

theorem storeSample_in_bounds (buffer : List int16_t) (index : Nat) (value : int16_t)
    (h : index < buffer.length) :
    storeSample buffer index value = some (buffer.set index value) := by
  simp [storeSample, h]

theorem tone_buffer_length_bounds (format : IOUserAudioStreamBasicDescription)
    (input_map : IOMemoryMap)
    (h_lo : 2 ≤ format.mBytesPerFrame / format.mChannelsPerFrame)
    (h_hi : format.mBytesPerFrame / format.mChannelsPerFrame ≤ input_map.GetLength) :
    0 < input_map.GetLength / (format.mBytesPerFrame / format.mChannelsPerFrame) ∧
    input_map.GetLength / (format.mBytesPerFrame / format.mChannelsPerFrame)
      ≤ input_map.samples.length := by
  constructor
  · exact Nat.div_pos h_hi (by omega)
  · calc input_map.GetLength / (format.mBytesPerFrame / format.mChannelsPerFrame)
        ≤ input_map.GetLength / 2 := Nat.div_le_div_left h_lo (by norm_num)
      _ = input_map.samples.length := by simp [IOMemoryMap.GetLength]

theorem toneChannels_in_bounds (format : IOUserAudioStreamBasicDescription)
    (buffer_length frame : Nat) (integer_value : int16_t) (h_pos : 0 < buffer_length) :
    ∀ (count channel_index : Nat) (buffer : List int16_t), buffer_length ≤ buffer.length →
      ∃ result, toneChannels format buffer_length frame integer_value count channel_index
          buffer = some result ∧ result.length = buffer.length := by
  intro count
  induction count with
  | zero => intro c buffer _; exact ⟨buffer, rfl, rfl⟩
  | succ count ih =>
    intro c buffer h_len
    have h_idx : (format.mChannelsPerFrame * frame % 2 ^ 64 + c) % 2 ^ 64 % buffer_length
        < buffer.length := lt_of_lt_of_le (Nat.mod_lt _ h_pos) h_len
    obtain ⟨result, h_run, h_res⟩ := ih (c + 1)
      (buffer.set ((format.mChannelsPerFrame * frame % 2 ^ 64 + c) % 2 ^ 64 % buffer_length)
        integer_value) (by simpa using h_len)
    refine ⟨result, ?_, by simpa using h_res⟩
    simp only [toneChannels, Nat.pos_iff_ne_zero.mp h_pos, if_false,
      storeSample_in_bounds _ _ _ h_idx, h_run]

theorem toneLoop_in_bounds (sin : Flt → Flt) (format : IOUserAudioStreamBasicDescription)
    (input_volume_level in_tone_freq : Flt) (buffer_length in_sample_time : Nat)
    (h_pos : 0 < buffer_length) (h_channels : format.mChannelsPerFrame < 2 ^ 31)
    (h_values : ∀ tone_sample_index : Nat, FloatToInt16 (f32_ofDouble (f64_mul
      input_volume_level (sin (f64_div (f64_mul (f64_mul (f64_mul (.fin 2) M_PI) in_tone_freq)
        (f64_ofNat tone_sample_index)) format.mSampleRate)))) ≠ none) :
    ∀ (count i : Nat) (st : List int16_t × Nat), buffer_length ≤ st.1.length →
      ∃ result, toneLoop sin format input_volume_level in_tone_freq buffer_length
          in_sample_time count i st = some result ∧ result.1.length = st.1.length := by
  intro count
  induction count with
  | zero => intro i st _; exact ⟨st, rfl, rfl⟩
  | succ count ih =>
    intro i st h_len
    obtain ⟨integer_value, h_value⟩ := Option.ne_none_iff_exists.mp (h_values st.2)
    obtain ⟨buffer1, h_channels_run, h_buffer1⟩ := toneChannels_in_bounds format buffer_length
      ((in_sample_time + i) % 2 ^ 64) integer_value h_pos format.mChannelsPerFrame 0 st.1 h_len
    have h_step : toneSample sin format input_volume_level in_tone_freq buffer_length
        in_sample_time i st = some (buffer1, (st.2 + 1) % 2 ^ 64) := by
      simp only [toneSample, ← h_value, not_le.mpr h_channels, if_false, h_channels_run]
    obtain ⟨result, h_run, h_res⟩ := ih (i + 1) (buffer1, (st.2 + 1) % 2 ^ 64)
      (by simpa [h_buffer1] using h_len)
    refine ⟨result, ?_, by simpa [h_buffer1] using h_res⟩
    simp only [toneLoop, h_step, h_run]

theorem toneChannels_contents (format : IOUserAudioStreamBasicDescription)
    (buffer_length frame : Nat) (integer_value : int16_t) (h_pos : 0 < buffer_length) :
    ∀ (count channel_index : Nat) (buffer : List int16_t), buffer_length ≤ buffer.length →
      ∃ result, toneChannels format buffer_length frame integer_value count channel_index
          buffer = some result ∧
        (∀ j : Nat, result[j]? = some integer_value ∨ result[j]? = buffer[j]?) ∧
        (∀ c : Nat, channel_index ≤ c → c < channel_index + count →
          result[(format.mChannelsPerFrame * frame % 2 ^ 64 + c) % 2 ^ 64 % buffer_length]?
            = some integer_value) ∧
        ∀ j : Nat, (∀ c : Nat, channel_index ≤ c → c < channel_index + count →
            (format.mChannelsPerFrame * frame % 2 ^ 64 + c) % 2 ^ 64 % buffer_length ≠ j) →
          result[j]? = buffer[j]? := by
  intro count
  induction count with
  | zero =>
    intro c buffer _
    exact ⟨buffer, rfl, fun j => Or.inr rfl, fun c h1 h2 => by omega, fun j _ => rfl⟩
  | succ count ih =>
    intro ci buffer h_len
    have h_idx : (format.mChannelsPerFrame * frame % 2 ^ 64 + ci) % 2 ^ 64 % buffer_length
        < buffer.length := lt_of_lt_of_le (Nat.mod_lt _ h_pos) h_len
    have h_stored : (buffer.set
        ((format.mChannelsPerFrame * frame % 2 ^ 64 + ci) % 2 ^ 64 % buffer_length)
        integer_value)[(format.mChannelsPerFrame * frame % 2 ^ 64 + ci) % 2 ^ 64
          % buffer_length]? = some integer_value := List.getElem?_set_self h_idx
    obtain ⟨result, h_run, h_from, h_hit, h_rest⟩ := ih (ci + 1)
      (buffer.set ((format.mChannelsPerFrame * frame % 2 ^ 64 + ci) % 2 ^ 64 % buffer_length)
        integer_value) (by simpa using h_len)
    refine ⟨result, ?_, ?_, ?_, ?_⟩
    · simp only [toneChannels, Nat.pos_iff_ne_zero.mp h_pos, if_false,
        storeSample_in_bounds _ _ _ h_idx, h_run]
    · intro j
      rcases h_from j with h | h
      · exact Or.inl h
      · by_cases h_j : (format.mChannelsPerFrame * frame % 2 ^ 64 + ci) % 2 ^ 64
            % buffer_length = j
        · left
          rw [h, ← h_j, h_stored]
        · right
          rw [h, List.getElem?_set_ne h_j]
    · intro c h1 h2
      rcases Nat.eq_or_lt_of_le h1 with h_eq | h_lt
      · subst h_eq
        rcases h_from ((format.mChannelsPerFrame * frame % 2 ^ 64 + ci) % 2 ^ 64
            % buffer_length) with h | h
        · exact h
        · rw [h, h_stored]
      · exact h_hit c h_lt (by omega)
    · intro j h_miss
      rw [h_rest j (fun c h1 h2 => h_miss c (by omega) (by omega)),
        List.getElem?_set_ne (h_miss ci le_rfl (by omega))]

theorem GenerateToneForInput_add (sin : Flt → Flt) (s : SimpleAudioDevice)
    (in_tone_freq : Flt) (in_sample_time n1 n2 : Nat) :
    (GenerateToneForInput sin s in_tone_freq in_sample_time n1).bind
        (fun s1 => GenerateToneForInput sin s1 in_tone_freq ((in_sample_time + n1) % 2 ^ 64) n2)
      = GenerateToneForInput sin s in_tone_freq in_sample_time (n1 + n2) := by
  cases h_map : s.m_input_memory_map with
  | none => simp [GenerateToneForInput, h_map]
  | some map =>
    by_cases h_ch : s.m_stream_format.mChannelsPerFrame = 0
    · simp [GenerateToneForInput, h_map, h_ch]
    by_cases h_bytes : s.m_stream_format.mBytesPerFrame / s.m_stream_format.mChannelsPerFrame = 0
    · simp [GenerateToneForInput, h_map, h_ch, h_bytes]
    simp only [GenerateToneForInput, h_map, h_ch, h_bytes, if_false]
    rw [toneLoop_add]
    cases h_first : toneLoop sin s.m_stream_format s.m_input_volume_control in_tone_freq
        (map.GetLength / (s.m_stream_format.mBytesPerFrame / s.m_stream_format.mChannelsPerFrame))
        in_sample_time n1 0 (map.samples, s.m_tone_sample_index) with
    | none => rfl
    | some st1 =>
      obtain ⟨buffer1, index1⟩ := st1
      have h_len := toneLoop_length _ _ _ _ _ _ _ _ _ _ h_first
      simp only at h_len
      simp only [Option.bind, h_ch, h_bytes, if_false, IOMemoryMap.GetLength, h_len]
      rw [toneLoop_congr sin s.m_stream_format s.m_input_volume_control in_tone_freq _
        ((in_sample_time + n1) % 2 ^ 64) in_sample_time n2 0 (0 + n1) (buffer1, index1)
        (by omega)]

theorem GenerateToneForInput_returns (sin : Flt → Flt) (s : SimpleAudioDevice)
    (input_map : IOMemoryMap) (in_tone_freq : Flt) (in_sample_time n : Nat)
    (h_index : s.m_tone_sample_index < 2 ^ 64)
    (h_map : s.m_input_memory_map = some input_map)
    (h_lo : 2 ≤ s.m_stream_format.mBytesPerFrame / s.m_stream_format.mChannelsPerFrame)
    (h_hi : s.m_stream_format.mBytesPerFrame / s.m_stream_format.mChannelsPerFrame
      ≤ input_map.GetLength)
    (h_channels : s.m_stream_format.mChannelsPerFrame < 2 ^ 31)
    (h_values : ∀ tone_sample_index : Nat, FloatToInt16 (f32_ofDouble (f64_mul
      s.m_input_volume_control (sin (f64_div (f64_mul (f64_mul (f64_mul (.fin 2) M_PI)
        in_tone_freq) (f64_ofNat tone_sample_index)) s.m_stream_format.mSampleRate))))
      ≠ none) :
    ∃ buffer : List int16_t,
      GenerateToneForInput sin s in_tone_freq in_sample_time n
        = some { s with m_input_memory_map := some { samples := buffer },
                        m_tone_sample_index := (s.m_tone_sample_index + n) % 2 ^ 64 } ∧
      buffer.length = input_map.samples.length := by
  obtain ⟨h_pos, h_le⟩ := tone_buffer_length_bounds s.m_stream_format input_map h_lo h_hi
  obtain ⟨result, h_run, h_len⟩ := toneLoop_in_bounds sin s.m_stream_format
    s.m_input_volume_control in_tone_freq _ in_sample_time h_pos h_channels h_values
    n 0 (input_map.samples, s.m_tone_sample_index) h_le
  obtain ⟨-, h_idx⟩ := toneLoop_spec _ _ _ _ _ _ _ _ _ _ h_index h_run
  have h_ch : s.m_stream_format.mChannelsPerFrame ≠ 0 := by
    intro h0
    rw [h0, Nat.div_zero] at h_lo
    omega
  have h_bytes : s.m_stream_format.mBytesPerFrame / s.m_stream_format.mChannelsPerFrame ≠ 0 := by
    omega
  refine ⟨result.1, ?_, h_len⟩
  simp only [GenerateToneForInput, h_map, h_ch, h_bytes, if_false, h_run]
  simp only at h_idx
  rw [h_idx]

theorem GenerateToneForInput_one_sample (sin : Flt → Flt) (s : SimpleAudioDevice)
    (input_map : IOMemoryMap) (in_tone_freq : Flt) (in_sample_time : Nat)
    (integer_value : int16_t)
    (h_map : s.m_input_memory_map = some input_map)
    (h_lo : 2 ≤ s.m_stream_format.mBytesPerFrame / s.m_stream_format.mChannelsPerFrame)
    (h_hi : s.m_stream_format.mBytesPerFrame / s.m_stream_format.mChannelsPerFrame
      ≤ input_map.GetLength)
    (h_channels : s.m_stream_format.mChannelsPerFrame < 2 ^ 31)
    (h_value : FloatToInt16 (f32_ofDouble (f64_mul
      s.m_input_volume_control (sin (f64_div (f64_mul (f64_mul (f64_mul (.fin 2) M_PI)
        in_tone_freq) (f64_ofNat s.m_tone_sample_index)) s.m_stream_format.mSampleRate))))
      = some integer_value) :
    ∃ buffer : List int16_t,
      GenerateToneForInput sin s in_tone_freq in_sample_time 1
        = some { s with m_input_memory_map := some { samples := buffer },
                        m_tone_sample_index := (s.m_tone_sample_index + 1) % 2 ^ 64 } ∧
      (∀ channel_index : Nat, channel_index < s.m_stream_format.mChannelsPerFrame →
        buffer[(s.m_stream_format.mChannelsPerFrame * (in_sample_time % 2 ^ 64) % 2 ^ 64
            + channel_index) % 2 ^ 64
          % (input_map.GetLength
              / (s.m_stream_format.mBytesPerFrame / s.m_stream_format.mChannelsPerFrame))]?
          = some integer_value) ∧
      ∀ j : Nat, (∀ channel_index : Nat, channel_index < s.m_stream_format.mChannelsPerFrame →
          (s.m_stream_format.mChannelsPerFrame * (in_sample_time % 2 ^ 64) % 2 ^ 64
              + channel_index) % 2 ^ 64
            % (input_map.GetLength
                / (s.m_stream_format.mBytesPerFrame / s.m_stream_format.mChannelsPerFrame))
            ≠ j) →
        buffer[j]? = input_map.samples[j]? := by
  obtain ⟨h_pos, h_le⟩ := tone_buffer_length_bounds s.m_stream_format input_map h_lo h_hi
  obtain ⟨buffer, h_run, -, h_hit, h_rest⟩ := toneChannels_contents s.m_stream_format
    (input_map.GetLength
      / (s.m_stream_format.mBytesPerFrame / s.m_stream_format.mChannelsPerFrame))
    (in_sample_time % 2 ^ 64) integer_value h_pos s.m_stream_format.mChannelsPerFrame 0
    input_map.samples h_le
  have h_ch : s.m_stream_format.mChannelsPerFrame ≠ 0 := by
    intro h0
    rw [h0, Nat.div_zero] at h_lo
    omega
  have h_bytes : s.m_stream_format.mBytesPerFrame / s.m_stream_format.mChannelsPerFrame ≠ 0 := by
    omega
  refine ⟨buffer, ?_, fun c h_c => h_hit c (Nat.zero_le c) (by omega),
    fun j h_miss => h_rest j (fun c _ h_c => h_miss c (by omega))⟩
  simp only [GenerateToneForInput, h_map, h_ch, h_bytes, if_false, toneLoop, toneSample,
    h_value, not_le.mpr h_channels, Nat.add_zero, h_run]

/-- Claim C8.  `GenerateToneForInput` for `n1` samples at sample time `t` followed by
`GenerateToneForInput` for `n2` samples at sample time `t + n1` (a 64-bit sum) gives the
device, input buffer and phase index included, that one call for `n1 + n2` samples at `t`
gives; a call for `n` samples on a mapped input buffer advances the phase index by `n`
(a 64-bit sum), and a call without a mapping changes nothing.  The calls return: when the
input buffer is mapped, the bytes per sample of the cached format are at least 2 and at most
the length of the buffer in bytes and there are fewer than `2 ^ 31` channels, a call for no
sample gives the device back, a call for one sample whose value converts to `int16_t`
stores that value in the slot of every channel of the frame at `t`, leaves every other slot
as it was and advances the phase index by one, and, when every sample value converts, the
call for `n1` samples, the call for `n2` samples after it and the call for `n1 + n2`
samples all return, the last two with the same device, whose buffer has the slots of the
mapping and whose phase index is the starting index plus `n1 + n2`. -/
theorem GenerateToneForInput_split (sin : Flt → Flt) (s : SimpleAudioDevice)
    (in_tone_freq : Flt) (in_sample_time n1 n2 : Nat)
    (h_index : s.m_tone_sample_index < 2 ^ 64) :
    (GenerateToneForInput sin s in_tone_freq in_sample_time n1).bind
        (fun s1 => GenerateToneForInput sin s1 in_tone_freq ((in_sample_time + n1) % 2 ^ 64) n2)
      = GenerateToneForInput sin s in_tone_freq in_sample_time (n1 + n2) ∧
    (∀ (n : Nat) (s1 : SimpleAudioDevice),
      GenerateToneForInput sin s in_tone_freq in_sample_time n = some s1 →
      (s.m_input_memory_map ≠ none → s1.m_tone_sample_index = (s.m_tone_sample_index + n) % 2 ^ 64) ∧
      (s.m_input_memory_map = none → s1 = s)) ∧
    ∀ input_map : IOMemoryMap, s.m_input_memory_map = some input_map →
      2 ≤ s.m_stream_format.mBytesPerFrame / s.m_stream_format.mChannelsPerFrame →
      s.m_stream_format.mBytesPerFrame / s.m_stream_format.mChannelsPerFrame
        ≤ input_map.GetLength →
      s.m_stream_format.mChannelsPerFrame < 2 ^ 31 →
      GenerateToneForInput sin s in_tone_freq in_sample_time 0 = some s ∧
      (∀ integer_value : int16_t,
        FloatToInt16 (f32_ofDouble (f64_mul s.m_input_volume_control (sin (f64_div (f64_mul
          (f64_mul (f64_mul (.fin 2) M_PI) in_tone_freq) (f64_ofNat s.m_tone_sample_index))
          s.m_stream_format.mSampleRate)))) = some integer_value →
        ∃ buffer : List int16_t,
          GenerateToneForInput sin s in_tone_freq in_sample_time 1
            = some { s with m_input_memory_map := some { samples := buffer },
                            m_tone_sample_index := (s.m_tone_sample_index + 1) % 2 ^ 64 } ∧
          (∀ channel_index : Nat, channel_index < s.m_stream_format.mChannelsPerFrame →
            buffer[(s.m_stream_format.mChannelsPerFrame * (in_sample_time % 2 ^ 64) % 2 ^ 64
                + channel_index) % 2 ^ 64
              % (input_map.GetLength / (s.m_stream_format.mBytesPerFrame
                  / s.m_stream_format.mChannelsPerFrame))]?
              = some integer_value) ∧
          ∀ j : Nat,
            (∀ channel_index : Nat, channel_index < s.m_stream_format.mChannelsPerFrame →
              (s.m_stream_format.mChannelsPerFrame * (in_sample_time % 2 ^ 64) % 2 ^ 64
                  + channel_index) % 2 ^ 64
                % (input_map.GetLength / (s.m_stream_format.mBytesPerFrame
                    / s.m_stream_format.mChannelsPerFrame)) ≠ j) →
            buffer[j]? = input_map.samples[j]?) ∧
      ((∀ tone_sample_index : Nat, FloatToInt16 (f32_ofDouble (f64_mul
          s.m_input_volume_control (sin (f64_div (f64_mul (f64_mul (f64_mul (.fin 2) M_PI)
            in_tone_freq) (f64_ofNat tone_sample_index)) s.m_stream_format.mSampleRate))))
          ≠ none) →
        ∃ buffer1 buffer : List int16_t,
          GenerateToneForInput sin s in_tone_freq in_sample_time n1
            = some { s with m_input_memory_map := some { samples := buffer1 },
                            m_tone_sample_index := (s.m_tone_sample_index + n1) % 2 ^ 64 } ∧
          GenerateToneForInput sin
              { s with m_input_memory_map := some { samples := buffer1 },
                       m_tone_sample_index := (s.m_tone_sample_index + n1) % 2 ^ 64 }
              in_tone_freq ((in_sample_time + n1) % 2 ^ 64) n2
            = some { s with
                m_input_memory_map := some { samples := buffer },
                m_tone_sample_index := (s.m_tone_sample_index + (n1 + n2)) % 2 ^ 64 } ∧
          GenerateToneForInput sin s in_tone_freq in_sample_time (n1 + n2)
            = some { s with
                m_input_memory_map := some { samples := buffer },
                m_tone_sample_index := (s.m_tone_sample_index + (n1 + n2)) % 2 ^ 64 } ∧
          buffer1.length = input_map.samples.length ∧
          buffer.length = input_map.samples.length) := by
  refine ⟨GenerateToneForInput_add sin s in_tone_freq in_sample_time n1 n2, ?_, ?_⟩
  · intro n s1 h
    cases h_map : s.m_input_memory_map with
    | none =>
      simp only [GenerateToneForInput, h_map] at h
      cases h
      simp
    | some map =>
      simp only [GenerateToneForInput, h_map] at h
      split_ifs at h
      split at h
      · rename_i buffer index h_loop
        cases h
        obtain ⟨-, h_idx⟩ := toneLoop_spec _ _ _ _ _ _ _ _ _ _ h_index h_loop
        exact ⟨fun _ => h_idx, fun h_none => by cases h_none⟩
      · cases h
  · intro input_map h_map h_lo h_hi h_channels
    have h_ch : s.m_stream_format.mChannelsPerFrame ≠ 0 := by
      intro h0
      rw [h0, Nat.div_zero] at h_lo
      omega
    have h_bytes :
        s.m_stream_format.mBytesPerFrame / s.m_stream_format.mChannelsPerFrame ≠ 0 := by
      omega
    refine ⟨?_, ?_, ?_⟩
    · simp only [GenerateToneForInput, h_map, h_ch, h_bytes, if_false, toneLoop]
      rw [← h_map]
    · intro integer_value h_value
      exact GenerateToneForInput_one_sample sin s input_map in_tone_freq in_sample_time
        integer_value h_map h_lo h_hi h_channels h_value
    · intro h_values
      obtain ⟨buffer1, h_first, h_len1⟩ := GenerateToneForInput_returns sin s input_map
        in_tone_freq in_sample_time n1 h_index h_map h_lo h_hi h_channels h_values
      obtain ⟨buffer, h_second, h_len⟩ := GenerateToneForInput_returns sin
        { s with m_input_memory_map := some { samples := buffer1 },
                 m_tone_sample_index := (s.m_tone_sample_index + n1) % 2 ^ 64 }
        { samples := buffer1 } in_tone_freq ((in_sample_time + n1) % 2 ^ 64) n2
        (Nat.mod_lt _ (by norm_num)) rfl h_lo
        (by simpa [IOMemoryMap.GetLength, h_len1] using h_hi) h_channels h_values
      have h_sum : ((s.m_tone_sample_index + n1) % 2 ^ 64 + n2) % 2 ^ 64
          = (s.m_tone_sample_index + (n1 + n2)) % 2 ^ 64 := by omega
      simp only [h_sum] at h_second
      have h_whole := GenerateToneForInput_add sin s in_tone_freq in_sample_time n1 n2
      rw [h_first] at h_whole
      simp only [Option.bind] at h_whole
      exact ⟨buffer1, buffer, h_first, h_second, by rw [← h_whole]; exact h_second, h_len1,
        h_len.trans h_len1⟩

/-- Witness for `GenerateToneForInput_split`: 2 and then 3 samples at sample time 5 on a
buffer of four slots, with a format of two bytes per sample and one channel and a sine
whose every value converts to the sample 0. -/
theorem GenerateToneForInput_split_witness :
    (tone_device.m_tone_sample_index < 2 ^ 64 ∧
      tone_device.m_input_memory_map = some { samples := tone_slots } ∧
      2 ≤ tone_device.m_stream_format.mBytesPerFrame
        / tone_device.m_stream_format.mChannelsPerFrame ∧
      tone_device.m_stream_format.mBytesPerFrame
          / tone_device.m_stream_format.mChannelsPerFrame
        ≤ IOMemoryMap.GetLength { samples := tone_slots } ∧
      tone_device.m_stream_format.mChannelsPerFrame < 2 ^ 31 ∧
      ∀ tone_sample_index : Nat, FloatToInt16 (f32_ofDouble (f64_mul
        tone_device.m_input_volume_control (flat_sine (f64_div (f64_mul (f64_mul
          (f64_mul (.fin 2) M_PI) (f64_ofNat 440)) (f64_ofNat tone_sample_index))
          tone_device.m_stream_format.mSampleRate)))) = some ⟨0, by decide⟩) ∧
    ((GenerateToneForInput flat_sine tone_device (f64_ofNat 440) 5 2).bind
        (fun s1 => GenerateToneForInput flat_sine s1 (f64_ofNat 440) ((5 + 2) % 2 ^ 64) 3)
      = GenerateToneForInput flat_sine tone_device (f64_ofNat 440) 5 (2 + 3) ∧
    (∀ (n : Nat) (s1 : SimpleAudioDevice),
      GenerateToneForInput flat_sine tone_device (f64_ofNat 440) 5 n = some s1 →
      (tone_device.m_input_memory_map ≠ none →
        s1.m_tone_sample_index = (tone_device.m_tone_sample_index + n) % 2 ^ 64) ∧
      (tone_device.m_input_memory_map = none → s1 = tone_device)) ∧
    ∀ input_map : IOMemoryMap, tone_device.m_input_memory_map = some input_map →
      2 ≤ tone_device.m_stream_format.mBytesPerFrame
        / tone_device.m_stream_format.mChannelsPerFrame →
      tone_device.m_stream_format.mBytesPerFrame
          / tone_device.m_stream_format.mChannelsPerFrame
        ≤ input_map.GetLength →
      tone_device.m_stream_format.mChannelsPerFrame < 2 ^ 31 →
      GenerateToneForInput flat_sine tone_device (f64_ofNat 440) 5 0 = some tone_device ∧
      (∀ integer_value : int16_t,
        FloatToInt16 (f32_ofDouble (f64_mul tone_device.m_input_volume_control (flat_sine
          (f64_div (f64_mul (f64_mul (f64_mul (.fin 2) M_PI) (f64_ofNat 440))
            (f64_ofNat tone_device.m_tone_sample_index))
          tone_device.m_stream_format.mSampleRate)))) = some integer_value →
        ∃ buffer : List int16_t,
          GenerateToneForInput flat_sine tone_device (f64_ofNat 440) 5 1
            = some { tone_device with
                m_input_memory_map := some { samples := buffer },
                m_tone_sample_index := (tone_device.m_tone_sample_index + 1) % 2 ^ 64 } ∧
          (∀ channel_index : Nat,
            channel_index < tone_device.m_stream_format.mChannelsPerFrame →
            buffer[(tone_device.m_stream_format.mChannelsPerFrame * (5 % 2 ^ 64) % 2 ^ 64
                + channel_index) % 2 ^ 64
              % (input_map.GetLength / (tone_device.m_stream_format.mBytesPerFrame
                  / tone_device.m_stream_format.mChannelsPerFrame))]?
              = some integer_value) ∧
          ∀ j : Nat,
            (∀ channel_index : Nat,
              channel_index < tone_device.m_stream_format.mChannelsPerFrame →
              (tone_device.m_stream_format.mChannelsPerFrame * (5 % 2 ^ 64) % 2 ^ 64
                  + channel_index) % 2 ^ 64
                % (input_map.GetLength / (tone_device.m_stream_format.mBytesPerFrame
                    / tone_device.m_stream_format.mChannelsPerFrame)) ≠ j) →
            buffer[j]? = input_map.samples[j]?) ∧
      ((∀ tone_sample_index : Nat, FloatToInt16 (f32_ofDouble (f64_mul
          tone_device.m_input_volume_control (flat_sine (f64_div (f64_mul (f64_mul
            (f64_mul (.fin 2) M_PI) (f64_ofNat 440)) (f64_ofNat tone_sample_index))
            tone_device.m_stream_format.mSampleRate)))) ≠ none) →
        ∃ buffer1 buffer : List int16_t,
          GenerateToneForInput flat_sine tone_device (f64_ofNat 440) 5 2
            = some { tone_device with
                m_input_memory_map := some { samples := buffer1 },
                m_tone_sample_index := (tone_device.m_tone_sample_index + 2) % 2 ^ 64 } ∧
          GenerateToneForInput flat_sine
              { tone_device with
                  m_input_memory_map := some { samples := buffer1 },
                  m_tone_sample_index := (tone_device.m_tone_sample_index + 2) % 2 ^ 64 }
              (f64_ofNat 440) ((5 + 2) % 2 ^ 64) 3
            = some { tone_device with
                m_input_memory_map := some { samples := buffer },
                m_tone_sample_index := (tone_device.m_tone_sample_index + (2 + 3)) % 2 ^ 64 } ∧
          GenerateToneForInput flat_sine tone_device (f64_ofNat 440) 5 (2 + 3)
            = some { tone_device with
                m_input_memory_map := some { samples := buffer },
                m_tone_sample_index := (tone_device.m_tone_sample_index + (2 + 3)) % 2 ^ 64 } ∧
          buffer1.length = input_map.samples.length ∧
          buffer.length = input_map.samples.length)) :=
  ⟨⟨by decide, rfl, by decide, by decide, by decide, fun _ => by
      show FloatToInt16 (f32_ofDouble (f64_mul (.fin 1) (.fin 0))) = some ⟨0, by decide⟩
      decide!⟩,
   GenerateToneForInput_split flat_sine tone_device (f64_ofNat 440) 5 2 3 (by decide)⟩

/-- The calls of the witness do return: five samples at sample time 5 fill the slots 1, 2,
3, 0 and 1 and leave the phase index at 5. -/
theorem GenerateToneForInput_example :
    GenerateToneForInput flat_sine tone_device (f64_ofNat 440) 5 5
      = some { tone_device with
          m_input_memory_map := some { samples := [⟨0, by decide⟩, ⟨0, by decide⟩,
            ⟨0, by decide⟩, ⟨0, by decide⟩] },
          m_tone_sample_index := 5 } := by
  decide!

/-! ## Starting and stopping I/O: theorems -/

theorem StopTimers_disabled (s : SimpleAudioDevice) :
    (StopTimers s).m_output_memory_map = s.m_output_memory_map ∧
    (StopTimers s).m_input_memory_map = s.m_input_memory_map ∧
    ∀ timer, (StopTimers s).m_zts_timer_event_source = some timer → timer.enabled = false := by
  unfold StopTimers
  cases h : s.m_zts_timer_event_source with
  | none => simp [h]
  | some t =>
    refine ⟨rfl, rfl, ?_⟩
    intro timer h_timer
    simp only [Option.some.injEq] at h_timer
    rw [← h_timer]
    rfl

theorem Failure_after_mappings (base_stop error : kern_return_t) (s : SimpleAudioDevice)
    (output_map input_map : Option IOMemoryMap) :
    Failure base_stop error
        { s with m_output_memory_map := output_map, m_input_memory_map := input_map }
      = some (error, { ( super_StopIO s base_stop).2 with
          m_output_memory_map := none, m_input_memory_map := none }) := by
  unfold Failure super_StopIO
  split_ifs <;> rfl

theorem rolled_back_state (s : SimpleAudioDevice) (base_start base_stop : kern_return_t) :
    ({ ( super_StopIO ( super_StartIO s base_start).2 base_stop).2 with
        m_output_memory_map := none, m_input_memory_map := none } :
      SimpleAudioDevice).m_zts_timer_event_source = s.m_zts_timer_event_source ∧
    ({ ( super_StopIO ( super_StartIO s base_start).2 base_stop).2 with
        m_output_memory_map := none, m_input_memory_map := none } :
      SimpleAudioDevice).m_zts_host_ticks_per_buffer = s.m_zts_host_ticks_per_buffer ∧
    GetCurrentZeroTimestamp { ( super_StopIO ( super_StartIO s base_start).2 base_stop).2 with
        m_output_memory_map := none, m_input_memory_map := none }
      = GetCurrentZeroTimestamp s := by
  unfold super_StopIO super_StartIO
  split_ifs <;> exact ⟨rfl, rfl, rfl⟩

theorem StopIO_keeps_mappings ( base_stop : kern_return_t) (s : SimpleAudioDevice) :
    ( StopIO base_stop s).2.m_output_memory_map = s.m_output_memory_map ∧
    ( StopIO base_stop s).2.m_input_memory_map = s.m_input_memory_map ∧
    ∀ timer, ( StopIO base_stop s).2.m_zts_timer_event_source = some timer →
      timer.enabled = false := by
  obtain ⟨h1, h2, h3⟩ := StopTimers_disabled s
  unfold StopIO super_StopIO
  split_ifs <;> exact ⟨h1, h2, h3⟩

theorem StopIO_disables_timer ( base_stop : kern_return_t) (s : SimpleAudioDevice) :
    ( StopIO base_stop s).1 = base_stop ∧
    ( StopIO base_stop s).2.m_zts_timer_event_source
      = s.m_zts_timer_event_source.map (fun t => SetEnable t false) := by
  have h_timer : (StopTimers s).m_zts_timer_event_source
      = s.m_zts_timer_event_source.map (fun t => SetEnable t false) := by
    unfold StopTimers
    cases h : s.m_zts_timer_event_source <;> simp [h]
  unfold StopIO super_StopIO
  split_ifs <;> exact ⟨rfl, h_timer⟩

/-- Claim C12.  When the base start fails, a stream has no memory descriptor or the creation
of a mapping fails, `StartIO` returns a status other than success; the device it leaves is
the one the base stop sequence gives, with both mappings absent and with the timer, the
ticks per buffer and the zero timestamp as they were before the call; `StopIO` after it
returns the status of the base stop, leaves both mappings absent and leaves the timer the
device had before `StartIO`, kept and disabled: no timer is enabled and none is dropped. -/
theorem StartIO_failure_rolls_back (host : StartHost) (s : SimpleAudioDevice)
    (stop_status : kern_return_t)
    (h_fail : host.base_start ≠ kIOReturnSuccess ∨ host.output_iomd = none ∨
      (∃ d, host.output_iomd = some d ∧ d.mapping_status ≠ kIOReturnSuccess) ∨
      host.input_iomd = none ∨
      (∃ d, host.input_iomd = some d ∧ d.mapping_status ≠ kIOReturnSuccess)) :
    ∃ error s1, StartIO host s = some (error, s1) ∧ error ≠ kIOReturnSuccess ∧
      s1 = { ( super_StopIO ( super_StartIO s host.base_start).2 host.base_stop).2 with
              m_output_memory_map := none, m_input_memory_map := none } ∧
      s1.m_output_memory_map = none ∧ s1.m_input_memory_map = none ∧
      s1.m_zts_timer_event_source = s.m_zts_timer_event_source ∧
      s1.m_zts_host_ticks_per_buffer = s.m_zts_host_ticks_per_buffer ∧
      GetCurrentZeroTimestamp s1 = GetCurrentZeroTimestamp s ∧
      ( StopIO stop_status s1).2.m_output_memory_map = none ∧
      ( StopIO stop_status s1).2.m_input_memory_map = none ∧
      (∀ timer, ( StopIO stop_status s1).2.m_zts_timer_event_source = some timer →
        timer.enabled = false) ∧
      ( StopIO stop_status s1).1 = stop_status ∧
      ( StopIO stop_status s1).2.m_zts_timer_event_source
        = s.m_zts_timer_event_source.map (fun t => SetEnable t false) := by
  have h_eta : ∀ t : SimpleAudioDevice,
      t = { t with m_output_memory_map := t.m_output_memory_map,
                   m_input_memory_map := t.m_input_memory_map } := fun t => rfl
  have key : ∃ error, error ≠ kIOReturnSuccess ∧ StartIO host s = some (error,
      { ( super_StopIO ( super_StartIO s host.base_start).2 host.base_stop).2 with
          m_output_memory_map := none, m_input_memory_map := none }) := by
    unfold StartIO
    simp only [CreateMapping]
    by_cases h_start : ( super_StartIO s host.base_start).1 = kIOReturnSuccess
    · simp only [h_start, ne_eq, not_true_eq_false, if_false]
      cases h_out : host.output_iomd with
      | none =>
        refine ⟨kIOReturnNoMemory, by decide, ?_⟩
        simp only
        rw [h_eta ( super_StartIO s host.base_start).2, Failure_after_mappings]
      | some output_iomd =>
        simp only
        by_cases h_out_status : output_iomd.mapping_status = kIOReturnSuccess
        · simp only [h_out_status, ne_eq, not_true_eq_false, if_false]
          cases h_in : host.input_iomd with
          | none =>
            refine ⟨kIOReturnNoMemory, by decide, ?_⟩
            simp only
            exact Failure_after_mappings _ _ _ _ _
          | some input_iomd =>
            simp only
            by_cases h_in_status : input_iomd.mapping_status = kIOReturnSuccess
            · exfalso
              have h_base : host.base_start = kIOReturnSuccess := by
                unfold super_StartIO at h_start
                split_ifs at h_start with h
                · exact h
                · exact h_start
              rcases h_fail with h | h | ⟨d, hd, h⟩ | h | ⟨d, hd, h⟩
              · exact h h_base
              · rw [h_out] at h; cases h
              · rw [h_out] at hd; cases hd; exact h h_out_status
              · rw [h_in] at h; cases h
              · rw [h_in] at hd; cases hd; exact h h_in_status
            · simp only [h_in_status, ne_eq, not_false_eq_true, if_true]
              exact ⟨_, h_in_status, Failure_after_mappings _ _ _ _ _⟩
        · simp only [h_out_status, ne_eq, not_false_eq_true, if_true]
          refine ⟨_, h_out_status, ?_⟩
          rw [h_eta ( super_StartIO s host.base_start).2]
          exact Failure_after_mappings _ _ _ _ _
    · simp only [h_start, ne_eq, not_false_eq_true, if_true]
      refine ⟨_, h_start, ?_⟩
      rw [h_eta ( super_StartIO s host.base_start).2, Failure_after_mappings]
  obtain ⟨error, h_error, h_run⟩ := key
  obtain ⟨h_timer, h_ticks, h_zts⟩ := rolled_back_state s host.base_start host.base_stop
  obtain ⟨h_out, h_in, h_disabled⟩ := StopIO_keeps_mappings stop_status
    { ( super_StopIO ( super_StartIO s host.base_start).2 host.base_stop).2 with
        m_output_memory_map := none, m_input_memory_map := none }
  obtain ⟨h_status, h_kept⟩ := StopIO_disables_timer stop_status
    { ( super_StopIO ( super_StartIO s host.base_start).2 host.base_stop).2 with
        m_output_memory_map := none, m_input_memory_map := none }
  rw [h_timer] at h_kept
  exact ⟨error, _, h_run, h_error, rfl, rfl, rfl, h_timer, h_ticks, h_zts, h_out, h_in,
    h_disabled, h_status, h_kept⟩

/-- Witness for `StartIO_failure_rolls_back`: the input stream has no memory descriptor after
the output mapping was created. -/
theorem StartIO_failure_rolls_back_witness :
    (half_mapped_host.base_start ≠ kIOReturnSuccess ∨ half_mapped_host.output_iomd = none ∨
      (∃ d, half_mapped_host.output_iomd = some d ∧ d.mapping_status ≠ kIOReturnSuccess) ∨
      half_mapped_host.input_iomd = none ∨
      (∃ d, half_mapped_host.input_iomd = some d ∧ d.mapping_status ≠ kIOReturnSuccess)) ∧
    ∃ error s1, StartIO half_mapped_host started_device = some (error, s1) ∧
      error ≠ kIOReturnSuccess ∧
      s1 = { ( super_StopIO ( super_StartIO started_device half_mapped_host.base_start).2
                half_mapped_host.base_stop).2 with
              m_output_memory_map := none, m_input_memory_map := none } ∧
      s1.m_output_memory_map = none ∧ s1.m_input_memory_map = none ∧
      s1.m_zts_timer_event_source = started_device.m_zts_timer_event_source ∧
      s1.m_zts_host_ticks_per_buffer = started_device.m_zts_host_ticks_per_buffer ∧
      GetCurrentZeroTimestamp s1 = GetCurrentZeroTimestamp started_device ∧
      ( StopIO kIOReturnSuccess s1).2.m_output_memory_map = none ∧
      ( StopIO kIOReturnSuccess s1).2.m_input_memory_map = none ∧
      (∀ timer, ( StopIO kIOReturnSuccess s1).2.m_zts_timer_event_source = some timer →
        timer.enabled = false) ∧
      ( StopIO kIOReturnSuccess s1).1 = kIOReturnSuccess ∧
      ( StopIO kIOReturnSuccess s1).2.m_zts_timer_event_source
        = started_device.m_zts_timer_event_source.map (fun t => SetEnable t false) :=
  ⟨Or.inr (Or.inr (Or.inr (Or.inl rfl))),
   StartIO_failure_rolls_back half_mapped_host started_device kIOReturnSuccess
     (Or.inr (Or.inr (Or.inr (Or.inl rfl))))⟩

/-- Two runs of `StartIO` on the idle device.  Without a descriptor for the input stream it
returns `kIOReturnNoMemory` and gives back the idle device; when every step succeeds it
returns success with both buffers mapped and the timer armed. -/
theorem StartIO_examples :
    StartIO half_mapped_host idle_device = some (kIOReturnNoMemory, idle_device) ∧
    StartIO working_host idle_device = some (kIOReturnSuccess,
      { started_device with
          is_running := true,
          m_output_memory_map := some loopback_input_map,
          m_input_memory_map := some loopback_input_map }) := by
  decide!

/-! ## Buffer accesses: theorems -/

/-- In a tone mode a begin-read cycle without an input mapping returns success and leaves
the device as it was. -/
theorem io_operation_tone_unmapped (sin : Flt → Flt) (s : SimpleAudioDevice)
    (in_io_buffer_frame_size in_sample_time : Nat)
    (h_tone : s.m_input_selector_control ≠ 0)
    (h_unmapped : s.m_input_memory_map = none) :
    io_operation sin s .BeginRead in_io_buffer_frame_size in_sample_time
      = some (kIOReturnSuccess, s) := by
  simp [io_operation, h_tone, GenerateToneForInput, h_unmapped]

/-- Claim C11, at the failing input.  On the idle device, whose selector is at 440 and whose
input buffer is not mapped, a begin-read cycle returns `kIOReturnSuccess` and changes
nothing; the same cycle with the selector on loopback returns `kIOReturnNoMemory`. -/
theorem tone_unmapped_returns_success :
    idle_device.m_input_selector_control = 440 ∧
    idle_device.m_input_memory_map = none ∧
    io_operation flat_sine idle_device .BeginRead 512 1024
      = some (kIOReturnSuccess, idle_device) ∧
    io_operation flat_sine loopback_unmapped_device .BeginRead 512 1024
      = some (kIOReturnNoMemory, loopback_unmapped_device) := by
  decide

theorem loopbackSample_in_bounds (format : IOUserAudioStreamBasicDescription)
    (input_volume_level : Flt) (output_buffer input_buffer : List int16_t)
    (in_sample_time i : Nat)
    (h_output : 0 < output_buffer.length) (h_input : 0 < input_buffer.length)
    (h_values : ∀ sample : int16_t,
      (f32_mul input_volume_level (f32_ofInt16 sample)).toInt16 ≠ none) :
    ∃ result, loopbackSample format input_volume_level output_buffer output_buffer.length
        input_buffer.length in_sample_time i input_buffer = some result ∧
      result.length = input_buffer.length := by
  have h_read : (format.mChannelsPerFrame * in_sample_time % 2 ^ 64 + i) % 2 ^ 64
      % output_buffer.length < output_buffer.length := Nat.mod_lt _ h_output
  have h_write : (format.mChannelsPerFrame * in_sample_time % 2 ^ 64 + i) % 2 ^ 64
      % input_buffer.length < input_buffer.length := Nat.mod_lt _ h_input
  obtain ⟨sample, h_sample⟩ : ∃ sample,
      output_buffer[(format.mChannelsPerFrame * in_sample_time % 2 ^ 64 + i) % 2 ^ 64
        % output_buffer.length]? = some sample :=
    ⟨_, List.getElem?_eq_getElem h_read⟩
  obtain ⟨value, h_value⟩ := Option.ne_none_iff_exists.mp (h_values sample)
  refine ⟨input_buffer.set ((format.mChannelsPerFrame * in_sample_time % 2 ^ 64 + i) % 2 ^ 64
    % input_buffer.length) value, ?_, List.length_set _ _ _⟩
  simp only [loopbackSample, Nat.pos_iff_ne_zero.mp h_output, Nat.pos_iff_ne_zero.mp h_input,
    or_self, if_false, h_sample, ← h_value, storeSample_in_bounds _ _ _ h_write]

theorem loopbackLoop_in_bounds (format : IOUserAudioStreamBasicDescription)
    (input_volume_level : Flt) (output_buffer : List int16_t) (input_length in_sample_time : Nat)
    (h_output : 0 < output_buffer.length) (h_input : 0 < input_length)
    (h_values : ∀ sample : int16_t,
      (f32_mul input_volume_level (f32_ofInt16 sample)).toInt16 ≠ none) :
    ∀ (count i : Nat) (input_buffer : List int16_t), input_buffer.length = input_length →
      ∃ result, loopbackLoop format input_volume_level output_buffer output_buffer.length
          input_length in_sample_time count i input_buffer = some result ∧
        result.length = input_length := by
  intro count
  induction count with
  | zero => intro i input_buffer h; exact ⟨input_buffer, rfl, h⟩
  | succ count ih =>
    intro i input_buffer h_len
    subst h_len
    obtain ⟨buffer1, h_step, h_buffer1⟩ := loopbackSample_in_bounds format input_volume_level
      output_buffer input_buffer in_sample_time i h_output h_input h_values
    obtain ⟨result, h_run, h_res⟩ := ih (i + 1) buffer1 h_buffer1
    exact ⟨result, by simp only [loopbackLoop, h_step, h_run], h_res⟩

/-- Claim C13, as amended.  With both buffers mapped with a length other than zero, the
index at which a pass of the loopback loop reads the output buffer and the index at which
it writes the input buffer are below the number of slots, and the loopback cycle returns
whenever its loop bound is below `2 ^ 31` and every sample converts back to `int16_t`.
When the bytes per sample of the cached format, `mBytesPerFrame / mChannelsPerFrame`, are
at least 2 and at most the length of the input buffer in bytes, the index at which
`GenerateToneForInput` writes is below the number of slots, and the call returns whenever
there are fewer than `2 ^ 31` channels and every sample value converts to `int16_t`.  All
indices are taken with the 64-bit sums and products of the source. -/
theorem buffer_accesses_in_bounds (sin : Flt → Flt) (s : SimpleAudioDevice)
    (output_map input_map : IOMemoryMap) (in_tone_freq : Flt)
    (in_io_buffer_frame_size in_sample_time i channel_index : Nat)
    (h_output_map : s.m_output_memory_map = some output_map)
    (h_input_map : s.m_input_memory_map = some input_map)
    (h_output : 0 < output_map.GetLength) (h_input : 0 < input_map.GetLength) :
    ((s.m_stream_format.mChannelsPerFrame * in_sample_time % 2 ^ 64 + i) % 2 ^ 64
        % (output_map.GetLength / 2) < output_map.samples.length ∧
      (s.m_stream_format.mChannelsPerFrame * in_sample_time % 2 ^ 64 + i) % 2 ^ 64
        % (input_map.GetLength / 2) < input_map.samples.length) ∧
    (s.m_input_selector_control = 0 →
      s.m_stream_format.mChannelsPerFrame * in_io_buffer_frame_size % 2 ^ 32 < 2 ^ 31 →
      (∀ sample : int16_t,
        (f32_mul s.m_input_volume_control (f32_ofInt16 sample)).toInt16 ≠ none) →
      ∃ input_buffer : List int16_t,
        io_operation sin s .BeginRead in_io_buffer_frame_size in_sample_time
          = some (kIOReturnSuccess,
              { s with m_input_memory_map := some { samples := input_buffer } }) ∧
        input_buffer.length = input_map.samples.length) ∧
    (2 ≤ s.m_stream_format.mBytesPerFrame / s.m_stream_format.mChannelsPerFrame →
      s.m_stream_format.mBytesPerFrame / s.m_stream_format.mChannelsPerFrame
        ≤ input_map.GetLength →
      (s.m_stream_format.mChannelsPerFrame * ((in_sample_time + i) % 2 ^ 64) % 2 ^ 64
          + channel_index) % 2 ^ 64
        % (input_map.GetLength
            / (s.m_stream_format.mBytesPerFrame / s.m_stream_format.mChannelsPerFrame))
        < input_map.samples.length ∧
      (s.m_stream_format.mChannelsPerFrame < 2 ^ 31 →
        (∀ tone_sample_index : Nat, FloatToInt16 (f32_ofDouble (f64_mul
          s.m_input_volume_control (sin (f64_div (f64_mul (f64_mul (f64_mul (.fin 2) M_PI)
            in_tone_freq) (f64_ofNat tone_sample_index)) s.m_stream_format.mSampleRate))))
          ≠ none) →
        ∃ (input_buffer : List int16_t) (tone_sample_index : Nat),
          GenerateToneForInput sin s in_tone_freq in_sample_time in_io_buffer_frame_size
            = some { s with m_input_memory_map := some { samples := input_buffer },
                            m_tone_sample_index := tone_sample_index } ∧
          input_buffer.length = input_map.samples.length)) := by
  have h_half : ∀ n : Nat, 2 * n / 2 = n := fun n => by omega
  have h_output_slots : 0 < output_map.samples.length := by
    simp only [IOMemoryMap.GetLength] at h_output; omega
  have h_input_slots : 0 < input_map.samples.length := by
    simp only [IOMemoryMap.GetLength] at h_input; omega
  refine ⟨⟨?_, ?_⟩, ?_, ?_⟩
  · rw [IOMemoryMap.GetLength, h_half]
    exact Nat.mod_lt _ h_output_slots
  · rw [IOMemoryMap.GetLength, h_half]
    exact Nat.mod_lt _ h_input_slots
  · intro h_loopback h_count h_values
    obtain ⟨result, h_run, h_len⟩ := loopbackLoop_in_bounds s.m_stream_format
      s.m_input_volume_control output_map.samples input_map.samples.length in_sample_time
      h_output_slots h_input_slots h_values
      (s.m_stream_format.mChannelsPerFrame * in_io_buffer_frame_size % 2 ^ 32) 0
      input_map.samples rfl
    refine ⟨result, ?_, h_len⟩
    simp only [io_operation, h_loopback, h_input_map, h_output_map, if_true,
      IOMemoryMap.GetLength, h_half, not_le.mpr h_count, if_false, h_run]
  · intro h_lo h_hi
    obtain ⟨h_pos, h_le⟩ := tone_buffer_length_bounds s.m_stream_format input_map h_lo h_hi
    refine ⟨lt_of_lt_of_le (Nat.mod_lt _ h_pos) h_le, ?_⟩
    intro h_channels h_values
    obtain ⟨result, h_run, h_len⟩ := toneLoop_in_bounds sin s.m_stream_format
      s.m_input_volume_control in_tone_freq _ in_sample_time h_pos h_channels h_values
      in_io_buffer_frame_size 0 (input_map.samples, s.m_tone_sample_index) h_le
    have h_ch : s.m_stream_format.mChannelsPerFrame ≠ 0 := by
      intro h0
      rw [h0, Nat.div_zero] at h_lo
      omega
    have h_bytes : s.m_stream_format.mBytesPerFrame / s.m_stream_format.mChannelsPerFrame ≠ 0 := by
      omega
    refine ⟨result.1, result.2, ?_, h_len⟩
    simp only [GenerateToneForInput, h_input_map, h_ch, h_bytes, if_false, h_run]

/-- Witness for `buffer_accesses_in_bounds`: the loopback device, two buffers of four slots. -/
theorem buffer_accesses_in_bounds_witness :
    (loopback_device.m_output_memory_map = some loopback_output_map ∧
      loopback_device.m_input_memory_map = some loopback_input_map ∧
      0 < loopback_output_map.GetLength ∧ 0 < loopback_input_map.GetLength) ∧
    (((loopback_device.m_stream_format.mChannelsPerFrame * 3 % 2 ^ 64 + 1) % 2 ^ 64
        % (loopback_output_map.GetLength / 2) < loopback_output_map.samples.length ∧
      (loopback_device.m_stream_format.mChannelsPerFrame * 3 % 2 ^ 64 + 1) % 2 ^ 64
        % (loopback_input_map.GetLength / 2) < loopback_input_map.samples.length) ∧
    (loopback_device.m_input_selector_control = 0 →
      loopback_device.m_stream_format.mChannelsPerFrame * 2 % 2 ^ 32 < 2 ^ 31 →
      (∀ sample : int16_t,
        (f32_mul loopback_device.m_input_volume_control (f32_ofInt16 sample)).toInt16
          ≠ none) →
      ∃ input_buffer : List int16_t,
        io_operation flat_sine loopback_device .BeginRead 2 3
          = some (kIOReturnSuccess,
              { loopback_device with
                  m_input_memory_map := some { samples := input_buffer } }) ∧
        input_buffer.length = loopback_input_map.samples.length) ∧
    (2 ≤ loopback_device.m_stream_format.mBytesPerFrame
          / loopback_device.m_stream_format.mChannelsPerFrame →
      loopback_device.m_stream_format.mBytesPerFrame
          / loopback_device.m_stream_format.mChannelsPerFrame
        ≤ loopback_input_map.GetLength →
      (loopback_device.m_stream_format.mChannelsPerFrame * ((3 + 1) % 2 ^ 64) % 2 ^ 64
          + 0) % 2 ^ 64
        % (loopback_input_map.GetLength
            / (loopback_device.m_stream_format.mBytesPerFrame
                / loopback_device.m_stream_format.mChannelsPerFrame))
        < loopback_input_map.samples.length ∧
      (loopback_device.m_stream_format.mChannelsPerFrame < 2 ^ 31 →
        (∀ tone_sample_index : Nat, FloatToInt16 (f32_ofDouble (f64_mul
          loopback_device.m_input_volume_control (flat_sine (f64_div (f64_mul (f64_mul
            (f64_mul (.fin 2) M_PI) (f64_ofNat 440)) (f64_ofNat tone_sample_index))
            loopback_device.m_stream_format.mSampleRate)))) ≠ none) →
        ∃ (input_buffer : List int16_t) (tone_sample_index : Nat),
          GenerateToneForInput flat_sine loopback_device (f64_ofNat 440) 3 2
            = some { loopback_device with
                m_input_memory_map := some { samples := input_buffer },
                m_tone_sample_index := tone_sample_index } ∧
          input_buffer.length = loopback_input_map.samples.length))) :=
  ⟨⟨rfl, rfl, by decide, by decide⟩,
   buffer_accesses_in_bounds flat_sine loopback_device loopback_output_map loopback_input_map
     (f64_ofNat 440) 2 3 1 0 rfl rfl (by decide) (by decide)⟩

/-- Claim C13 as written fails.  With one byte per sample, `GenerateToneForInput` takes the
four-slot buffer of eight bytes to have eight slots: at sample time 4 it stores at index 4,
outside the buffer, while at sample time 3 the store at index 3 succeeds.  With four bytes
per sample and a buffer of two bytes the buffer length it computes is 0, and the index is a
remainder by zero. -/
theorem tone_index_out_of_bounds :
    (byte_format_device.m_input_memory_map = some { samples := tone_slots } ∧
      tone_slots.length = 4 ∧
      IOMemoryMap.GetLength { samples := tone_slots }
        / (byte_format_device.m_stream_format.mBytesPerFrame
            / byte_format_device.m_stream_format.mChannelsPerFrame) = 8 ∧
      (byte_format_device.m_stream_format.mChannelsPerFrame * ((4 + 0) % 2 ^ 64) % 2 ^ 64
        + 0) % 2 ^ 64 % 8 = 4 ∧
      storeSample tone_slots 4 ⟨0, by decide⟩ = none ∧
      GenerateToneForInput flat_sine byte_format_device (f64_ofNat 440) 4 1 = none ∧
      GenerateToneForInput flat_sine byte_format_device (f64_ofNat 440) 3 1
        = some { byte_format_device with
            m_input_memory_map := some { samples := [⟨1, by decide⟩, ⟨2, by decide⟩,
              ⟨3, by decide⟩, ⟨0, by decide⟩] },
            m_tone_sample_index := 1 }) ∧
    (IOMemoryMap.GetLength { samples := [⟨1, by decide⟩] }
        / (wide_format_device.m_stream_format.mBytesPerFrame
            / wide_format_device.m_stream_format.mChannelsPerFrame) = 0 ∧
      GenerateToneForInput flat_sine wide_format_device (f64_ofNat 440) 0 1 = none) := by
  decide!

end NullAudio
